import Mathlib

/-!
# Go_Webapp: request validation, ownership and the image consistency protocol

A shallow embedding of the handlers of `Go_Webapp/controllers` and of the
middleware `AuthenticateUser`, with theorems about their observable behaviour.

Modelling conventions.

* The relational store and the blob store are explicit state (`Store`); a
  handler is a function from the collaborators' outcomes (`Env`), the principal
  attached to the gin context, the request and the store to a response and the
  next store.
* Tables are lists in primary-key order; inserts take the next value of the
  table's sequence and append.
* `First` is a lookup on the table; a lookup that fails is handled by every
  handler exactly like an absent record, so it is not modelled separately.
* Outcomes that the code cannot control (a write to the relational store
  failing, the blob store failing, the bcrypt digest, the generated uuid, the
  clock) are fields of `Env`.
* A `float64` is represented by the rational number it denotes (JSON yields
  neither NaN nor an infinity); a JSON number literal that is not a plain
  integer carries the float64 it converts to. An integer literal is converted
  without rounding, which is exact up to 2^53 and does not change any decision
  of the handlers beyond it.
* A panic is recovered by `gin.Recovery` and reported as status 500.
-/

namespace GoWebapp

/-! ## Records (models/user.go, models/product.go, models/image.go) -/

/-- Row of table `users`. -/
structure User where
  ID : Nat
  FirstName : String
  LastName : String
  Password : String
  Username : String
  AccountCreated : Nat
  AccountUpdated : Nat
deriving DecidableEq, Repr

/-- Row of table `product`. -/
structure Product where
  ID : Nat
  Name : String
  Description : String
  Sku : String
  Manufacturer : String
  Quantity : Int
  DateAdded : Nat
  DateLastUpdated : Nat
  OwnerUserID : Nat
deriving DecidableEq, Repr

/-- Row of table `image`. -/
structure Image where
  ImageID : Nat
  ProductID : Nat
  FileName : String
  DateCreated : Nat
  S3BucketPath : String
deriving DecidableEq, Repr

/-- Row of table `health_checks` (models/health_check.go). -/
structure HealthCheck where
  CheckID : Nat
  CheckDatetime : Nat
deriving DecidableEq, Repr

/-! ## Stores and collaborators -/

/-- The relational tables, their id sequences, and the keys present in the
bucket of the blob store. -/
structure Store where
  users : List User := []
  products : List Product := []
  images : List Image := []
  blobs : List String := []
  userSeq : Nat := 0
  productSeq : Nat := 0
  imageSeq : Nat := 0
  healthChecks : List HealthCheck := []
  healthSeq : Nat := 0
deriving DecidableEq, Repr

/-- Outcomes of the collaborators during one request. -/
structure Env where
  /-- Value of time.Now(). -/
  now : Nat := 0
  /-- Value of uuid.New().String(). -/
  uuid : String := ""
  /-- The relational store rejects an INSERT for a reason other than a
  uniqueness violation. -/
  insertFails : Bool := false
  /-- The relational store rejects an UPDATE. -/
  updateFails : Bool := false
  /-- The relational store rejects the DELETE of image rows by product id. -/
  deleteImagesFails : Bool := false
  /-- The relational store rejects the DELETE of a single row. -/
  deleteFails : Bool := false
  /-- The call s3Client.PutObject returns an error. -/
  blobPutFails : Bool := false
  /-- The call s3Client.DeleteObject returns an error. -/
  blobDeleteFails : Bool := false
  /-- A query db.DB.Find over a whole table returns an error. -/
  findAllFails : Bool := false
  /-- Digest computed by bcrypt.GenerateFromPassword; none when it errors. -/
  hash : String → Option String := fun _ => none
  /-- Whether bcrypt.CompareHashAndPassword digest password returns nil. -/
  verify : String → String → Bool := fun _ _ => false

/-! ## JSON values and requests -/

/-- JSON value read from a request body. A number literal written without
fraction and exponent is `int`; any other number literal is `frac`, carrying
the float64 that strconv.ParseFloat converts it to. -/
inductive JSON where
  | null
  | bool (b : Bool)
  | int (i : Int)
  | frac (q : ℚ)
  | str (s : String)
  | arr (xs : List JSON)
  | obj (kvs : List (String × JSON))

/-- The multipart file header returned by c.FormFile. -/
structure FileHeader where
  Filename : String
  /-- Value of Header.Get("Content-Type") of the part. -/
  ContentType : String
  /-- Whether fileHeader.Open() succeeds. -/
  opens : Bool := true
deriving DecidableEq, Repr

/-- What the handlers read from the gin context of a request. -/
structure Request where
  method : String := "GET"
  /-- Result of c.Request.URL.Query(). -/
  query : List (String × String) := []
  /-- Field c.Request.ContentLength. -/
  contentLength : Int := 0
  /-- Value of Header.Get("Transfer-Encoding"). -/
  transferEncoding : String := ""
  /-- Value of Header.Get("Authorization"). -/
  authorization : String := ""
  /-- Result of c.Request.BasicAuth(). -/
  basicAuth : Option (String × String) := none
  /-- Value of c.Param("productId"). -/
  productId : String := ""
  /-- Value of c.Param("imageId"). -/
  imageId : String := ""
  /-- Value of c.Param("userId"). -/
  userId : String := ""
  /-- First JSON value of the body; none when the body does not start with a
  well-formed JSON value, so that Decode returns an error. -/
  body : Option JSON := none
  /-- Result of c.FormFile("file"); none when it errors. -/
  file : Option FileHeader := none

/-- Outward representation of a User: the Password field has json tag "-". -/
structure UserView where
  id : Nat
  first_name : String
  last_name : String
  username : String
  account_created : Nat
  account_updated : Nat
deriving DecidableEq, Repr

/-- Serialisation of a User by c.JSON. -/
def User.view (u : User) : UserView :=
  { id := u.ID, first_name := u.FirstName, last_name := u.LastName,
    username := u.Username, account_created := u.AccountCreated,
    account_updated := u.AccountUpdated }

/-- Payload written by c.JSON, if any. -/
inductive Body where
  | empty
  | product (p : Product)
  | image (i : Image)
  | user (v : UserView)
  | products (ps : List Product)
  | images (imgs : List Image)
deriving DecidableEq, Repr

/-- Status and payload of a response. -/
structure Response where
  status : Nat
  body : Body := Body.empty
deriving DecidableEq, Repr

/-- Response of c.Status(code). -/
def status (code : Nat) : Response := { status := code }

/-! ## strconv.Atoi -/

/-- Loop of strconv.ParseUint in base 10 over the characters that follow the
sign, read from left to right, with n the value read so far. A character that is
not a decimal digit is a syntax error (error false). A digit read when n has
reached the cutoff 2^64 / 10 + 1 (rounded down), or that takes the value above
maxVal, is a range error (error true). The first error met is the one
returned. -/
def parseUintLoop (maxVal : Nat) : List Char → Nat → Except Bool Nat
  | [], n => Except.ok n
  | c :: cs, n =>
    if !c.isDigit then Except.error false
    else if n ≥ (2 ^ 64 - 1) / 10 + 1 then Except.error true
    else if n * 10 + (c.toNat - 48) > maxVal then Except.error true
    else parseUintLoop maxVal cs (n * 10 + (c.toNat - 48))

/-- Function strconv.ParseUint in base 10 with the largest value maxVal of the
bit size: the empty string is a syntax error. -/
def parseUint (maxVal : Nat) (cs : List Char) : Except Bool Nat :=
  if cs.isEmpty then Except.error false else parseUintLoop maxVal cs 0

/-- Function strconv.ParseInt in base 10 for int64, as used by strconv.Atoi:
optional sign, then ParseUint for 64 bits. On success the value; on error the
value returned alongside the error, which is 0 for a syntax error and the
nearest bound of int64 for a range error. -/
def parseInt (s : String) : Except Int Int :=
  match s.data with
  | [] => Except.error 0
  | c :: cs =>
    let neg : Bool := c = '-'
    match parseUint (2 ^ 64 - 1) (if c = '+' ∨ c = '-' then cs else c :: cs) with
    | Except.error false => Except.error 0
    | Except.error true => if neg then Except.error (-(2 ^ 63)) else Except.error (2 ^ 63 - 1)
    | Except.ok un =>
      if !neg ∧ un ≥ 2 ^ 63 then Except.error (2 ^ 63 - 1)
      else if neg ∧ un > 2 ^ 63 then Except.error (-(2 ^ 63))
      else Except.ok (if neg then -(un : Int) else (un : Int))

/-- The idiom `id, err := strconv.Atoi(s)` followed by a test of err: the value
when err is nil. -/
def Atoi (s : String) : Option Int :=
  match parseInt s with
  | Except.ok n => some n
  | Except.error _ => none

/-- The idiom `id, _ := strconv.Atoi(s)`: the first result, whatever the error. -/
def atoiValue (s : String) : Int :=
  match parseInt s with
  | Except.ok n => n
  | Except.error v => v

/-! ## Relational store and blob store operations -/

/-- Query db.DB.First(&product, id). -/
def findProduct (st : Store) (id : Int) : Option Product :=
  st.products.find? (fun p => decide ((p.ID : Int) = id))

/-- Query db.DB.Where("image_id = ? AND product_id = ?", iId, pId).First(&image). -/
def findImage (st : Store) (iId pId : Int) : Option Image :=
  st.images.find? (fun i => decide ((i.ImageID : Int) = iId) && decide ((i.ProductID : Int) = pId))

/-- Statement db.DB.Create(&newImage): the row gets the next image id. -/
def dbInsertImage (env : Env) (st : Store) (img : Image) : Option (Image × Store) :=
  if env.insertFails then none
  else
    let row := { img with ImageID := st.imageSeq + 1 }
    some (row, { st with images := st.images ++ [row], imageSeq := st.imageSeq + 1 })

/-- Statement db.DB.Delete(&image): removes the rows with the image id. -/
def dbDeleteImage (env : Env) (st : Store) (img : Image) : Option Store :=
  if env.deleteFails then none
  else some { st with images := st.images.filter (fun i => decide (i.ImageID ≠ img.ImageID)) }

/-- Call s3Client.PutObject with the given key. -/
def s3PutObject (env : Env) (st : Store) (key : String) : Option Store :=
  if env.blobPutFails then none
  else some { st with blobs := if key ∈ st.blobs then st.blobs else st.blobs ++ [key] }

/-- Call s3Client.DeleteObject with the given key. -/
def s3DeleteObject (env : Env) (st : Store) (key : String) : Option Store :=
  if env.blobDeleteFails then none
  else some { st with blobs := st.blobs.filter (fun k => decide (k ≠ key)) }

/-- Statement db.DB.Create(&newProduct): the row gets the next product id. -/
def dbInsertProduct (env : Env) (st : Store) (p : Product) : Option (Product × Store) :=
  if env.insertFails then none
  else
    let row := { p with ID := st.productSeq + 1 }
    some (row, { st with products := st.products ++ [row], productSeq := st.productSeq + 1 })

/-- Statement db.DB.Where("product_id = ?", id).Delete(&models.Image{}); when the
statement fails no row is removed. -/
def dbDeleteImagesWhere (env : Env) (st : Store) (id : Int) : Option Store :=
  if env.deleteImagesFails then none
  else some { st with images := st.images.filter (fun i => decide ((i.ProductID : Int) ≠ id)) }

/-- Statement db.DB.Delete(&product): removes the rows with the product id. -/
def dbDeleteProduct (env : Env) (st : Store) (product : Product) : Option Store :=
  if env.deleteFails then none
  else some { st with products := st.products.filter (fun p => decide (p.ID ≠ product.ID)) }

/-! ## Go values held by a map[string]interface{} -/

/-- Dynamic value: what encoding/json stores into an interface{}, an int taken
from a typed request, or a time.Time. -/
inductive Value where
  | nil
  | bool (b : Bool)
  | int (i : Int)
  | float64 (q : ℚ)
  | string (s : String)
  | time (t : Nat)
  | composite
deriving DecidableEq

/-- Conversion of a JSON value stored into an interface{}: every number becomes
a float64, arrays and objects become slices and maps. -/
def JSON.toValue : JSON → Value
  | JSON.null => Value.nil
  | JSON.bool b => Value.bool b
  | JSON.int i => Value.float64 (i : ℚ)
  | JSON.frac q => Value.float64 q
  | JSON.str s => Value.string s
  | JSON.arr _ => Value.composite
  | JSON.obj _ => Value.composite

/-- Go map with string keys, as its list of entries (keys are distinct). -/
abbrev GoMap := List (String × Value)

/-- Assignment m[k] = v. -/
def GoMap.set (m : GoMap) (k : String) (v : Value) : GoMap :=
  m.filter (fun kv => decide (kv.1 ≠ k)) ++ [(k, v)]

/-- Index expression m[k] with the comma-ok form. -/
def GoMap.get (m : GoMap) (k : String) : Option Value :=
  (m.find? (fun kv => decide (kv.1 = k))).map Prod.snd

/-- Column assignment of an UPDATE on table product; none when the value does
not fit the column (wrong type, NULL, or a quantity outside the check
constraint) or the column is unknown. The column date_last_updated is declared
create-only in models/product.go, so the ORM leaves its assignment out of the
UPDATE and the row keeps its value. -/
def setColumn (p : Product) (col : String) (v : Value) : Option Product :=
  if col = "name" then
    match v with
    | Value.string s => some { p with Name := s }
    | _ => none
  else if col = "description" then
    match v with
    | Value.string s => some { p with Description := s }
    | _ => none
  else if col = "sku" then
    match v with
    | Value.string s => some { p with Sku := s }
    | _ => none
  else if col = "manufacturer" then
    match v with
    | Value.string s => some { p with Manufacturer := s }
    | _ => none
  else if col = "quantity" then
    match v with
    | Value.int i => if 0 ≤ i ∧ i ≤ 100 then some { p with Quantity := i } else none
    | Value.float64 q =>
      if 0 ≤ q ∧ q ≤ 100 ∧ q = ((⌊q⌋ : Int) : ℚ) then some { p with Quantity := ⌊q⌋ } else none
    | _ => none
  else if col = "date_last_updated" then some p
  else none

/-- All column assignments of a fieldset applied to one row. -/
def applyFields (fields : GoMap) (p : Product) : Option Product :=
  fields.foldlM (fun row kv => setColumn row kv.1 kv.2) p

/-- Statement db.DB.Model(&product).Updates(fields): UPDATE of the rows with the
id of product. -/
def dbUpdateProduct (env : Env) (st : Store) (product : Product) (fields : GoMap) :
    Option Store :=
  if env.updateFails then none
  else
    match applyFields fields product with
    | none => none
    | some _ =>
      some { st with products := st.products.map (fun p =>
        if p.ID = product.ID then (applyFields fields p).getD p else p) }

/-! ## encoding/json: decoding an object into a struct or a map -/

/-- Canonical representative of the simple case-folding class of a rune, for
the classes that contain an ASCII letter (the Kelvin sign folds to K, the long
s to S); other runes are left as they are and never equal an ASCII letter. -/
def foldRune (c : Char) : Char :=
  if c = Char.ofNat 0x212A then 'K'
  else if c = Char.ofNat 0x17F then 'S'
  else c.toUpper

/-- Function foldName of encoding/json. -/
def foldName (s : String) : String := String.mk (s.data.map foldRune)

/-- The struct field, named by its json tag, that receives an object key: an
exact match is preferred, a case-insensitive match is accepted. -/
def lookupField (fields : List String) (key : String) : Option String :=
  match fields.find? (fun f => decide (f = key)) with
  | some f => some f
  | none => fields.find? (fun f => decide (foldName f = foldName key))

/-- Decoding of a JSON value into a string field; null leaves the field as it
is, a value that is not a string is an UnmarshalTypeError. -/
def decodeString (old : String) : JSON → Option String
  | JSON.null => some old
  | JSON.str s => some s
  | _ => none

/-- Decoding of a JSON value into a field of type *int; null sets the pointer
to nil, only a plain integer literal in the range of int is accepted. -/
def decodeIntPtr : JSON → Option (Option Int)
  | JSON.null => some none
  | JSON.int i => if -(2 ^ 63) ≤ i ∧ i < 2 ^ 63 then some (some i) else none
  | _ => none

/-- Struct ProductRequest; Quantity is a pointer, nil (none) when missing, and
is dereferenced only after the test against nil. -/
structure ProductRequest where
  Name : String := ""
  Description : String := ""
  Sku : String := ""
  Manufacturer : String := ""
  Quantity : Option Int := none
deriving DecidableEq, Repr

/-- The json tags of ProductRequest. -/
def productFields : List String := ["name", "description", "sku", "manufacturer", "quantity"]

/-- One object member decoded into a ProductRequest with DisallowUnknownFields
set; none stands for a decoding error. -/
def ProductRequest.setField (r : ProductRequest) (key : String) (v : JSON) :
    Option ProductRequest :=
  match lookupField productFields key with
  | none => none
  | some f =>
    if f = "name" then (decodeString r.Name v).map (fun s => { r with Name := s })
    else if f = "description" then
      (decodeString r.Description v).map (fun s => { r with Description := s })
    else if f = "sku" then (decodeString r.Sku v).map (fun s => { r with Sku := s })
    else if f = "manufacturer" then
      (decodeString r.Manufacturer v).map (fun s => { r with Manufacturer := s })
    else (decodeIntPtr v).map (fun q => { r with Quantity := q })

/-- Call decoder.Decode(&req) for a ProductRequest with DisallowUnknownFields:
none when Decode returns an error. -/
def decodeProductRequest : Option JSON → Option ProductRequest
  | none => none
  | some JSON.null => some {}
  | some (JSON.obj kvs) => kvs.foldlM (fun r kv => r.setField kv.1 kv.2) {}
  | some _ => none

/-- The map filled from the members of an object, in order: a later member
replaces an earlier one with the same key. -/
def mapOfMembers (kvs : List (String × JSON)) : GoMap :=
  kvs.foldl (fun m kv => GoMap.set m kv.1 kv.2.toValue) []

/-- Call decoder.Decode(&reqMap) for a map[string]interface{}: the outer none
when Decode returns an error, the inner none when the map is left nil. -/
def decodeMap : Option JSON → Option (Option GoMap)
  | none => none
  | some JSON.null => some none
  | some (JSON.obj kvs) => some (some (mapOfMembers kvs))
  | some _ => none

/-! ## controllers/productController.go -/

/-- Helper isValidRequest. -/
def isValidRequest (req : Request) (requireBody : Bool) : Bool :=
  if req.query.length > 0 then false
  else if requireBody then
    if req.contentLength = 0 ∧ req.transferEncoding = "" then false else true
  else
    if req.contentLength > 0 then false else true

/-- Handler CreateProduct. -/
def CreateProduct (env : Env) (user : Option User) (req : Request) (st : Store) :
    Response × Store :=
  match user with
  | none => (status 401, st)
  | some authUser =>
    if !isValidRequest req true then (status 400, st)
    else
      match decodeProductRequest req.body with
      | none => (status 400, st)
      | some r =>
        if r.Name = "" ∨ r.Description = "" ∨ r.Sku = "" ∨ r.Manufacturer = "" ∨
            r.Quantity = none then
          (status 400, st)
        else
          let quantity := r.Quantity.getD 0
          if quantity < 0 ∨ quantity > 100 then (status 400, st)
          else
            let newProduct : Product :=
              { ID := 0, Name := r.Name, Description := r.Description, Sku := r.Sku,
                Manufacturer := r.Manufacturer, Quantity := quantity,
                OwnerUserID := authUser.ID, DateAdded := env.now, DateLastUpdated := env.now }
            match dbInsertProduct env st newProduct with
            | none => (status 400, st)
            | some (row, st1) => ({ status := 201, body := Body.product row }, st1)

/-- Handler UpdatePutProduct. -/
def UpdatePutProduct (env : Env) (user : Option User) (req : Request) (st : Store) :
    Response × Store :=
  match user with
  | none => (status 401, st)
  | some authUser =>
    match Atoi req.productId with
    | none => (status 400, st)
    | some id =>
      if !isValidRequest req true then (status 400, st)
      else
        match findProduct st id with
        | none => (status 404, st)
        | some product =>
          if product.OwnerUserID ≠ authUser.ID then (status 403, st)
          else
            match decodeProductRequest req.body with
            | none => (status 400, st)
            | some r =>
              if r.Name = "" ∨ r.Description = "" ∨ r.Sku = "" ∨ r.Manufacturer = "" ∨
                  r.Quantity = none then
                (status 400, st)
              else
                let quantity := r.Quantity.getD 0
                if quantity < 0 ∨ quantity > 100 then (status 400, st)
                else
                  let updates : GoMap :=
                    [("name", Value.string r.Name), ("description", Value.string r.Description),
                     ("sku", Value.string r.Sku), ("manufacturer", Value.string r.Manufacturer),
                     ("quantity", Value.int quantity), ("date_last_updated", Value.time env.now)]
                  match dbUpdateProduct env st product updates with
                  | none => (status 400, st)
                  | some st1 => (status 204, st1)

/-- Conversion int(f) of a float64: truncation toward zero. -/
def truncate (q : ℚ) : Int := if 0 ≤ q then ⌊q⌋ else ⌈q⌉

/-- The keys of a possibly nil map, as ranged over by a for loop. -/
def mapKeys (m : Option GoMap) : List String := (m.getD []).map Prod.fst

/-- The quantity test of UpdatePatchProduct: true when the handler rejects. -/
def badQuantity (m : Option GoMap) : Bool :=
  match (m.getD []).get "quantity" with
  | some (Value.float64 qFloat) =>
    decide (qFloat < 0 ∨ qFloat > 100 ∨ qFloat ≠ ((truncate qFloat : Int) : ℚ))
  | some _ => true
  | none => false

/-- Handler UpdatePatchProduct. -/
def UpdatePatchProduct (env : Env) (user : Option User) (req : Request) (st : Store) :
    Response × Store :=
  match user with
  | none => (status 401, st)
  | some authUser =>
    match Atoi req.productId with
    | none => (status 400, st)
    | some id =>
      if !isValidRequest req true then (status 400, st)
      else
        match findProduct st id with
        | none => (status 404, st)
        | some product =>
          if product.OwnerUserID ≠ authUser.ID then (status 403, st)
          else
            match decodeMap req.body with
            | none => (status 400, st)
            | some reqMap =>
              if !(mapKeys reqMap).all (fun key => decide (key ∈ productFields)) then
                (status 400, st)
              else if badQuantity reqMap then (status 400, st)
              else
                match reqMap with
                | none => (status 500, st)
                | some m =>
                  match dbUpdateProduct env st product (m.set "date_last_updated" (Value.time env.now)) with
                  | none => (status 400, st)
                  | some st1 => (status 204, st1)

/-- Handler DeleteProduct; the results of both DELETE statements are not
inspected. -/
def DeleteProduct (env : Env) (user : Option User) (req : Request) (st : Store) :
    Response × Store :=
  match user with
  | none => (status 401, st)
  | some authUser =>
    match Atoi req.productId with
    | none => (status 400, st)
    | some id =>
      if req.query.length > 0 ∨ req.contentLength > 0 then (status 400, st)
      else
        match findProduct st id with
        | none => (status 404, st)
        | some product =>
          if product.OwnerUserID ≠ authUser.ID then (status 403, st)
          else
            let st1 := (dbDeleteImagesWhere env st id).getD st
            let st2 := (dbDeleteProduct env st1 product).getD st1
            (status 204, st2)

/-! ## controllers/imageController.go -/

/-- Handler CreateImage. -/
def CreateImage (env : Env) (user : Option User) (req : Request) (st : Store) :
    Response × Store :=
  match user with
  | none => (status 401, st)
  | some authUser =>
    let productId := atoiValue req.productId
    if req.query.length > 0 then (status 400, st)
    else
      match req.file with
      | none => (status 400, st)
      | some fileHeader =>
        let contentType := fileHeader.ContentType
        if contentType ≠ "image/jpeg" ∧ contentType ≠ "image/png" ∧ contentType ≠ "image/jpg" then
          (status 400, st)
        else
          match findProduct st productId with
          | none => (status 404, st)
          | some product =>
            if product.OwnerUserID ≠ authUser.ID then (status 403, st)
            else if !fileHeader.opens then (status 400, st)
            else
              let uniqueFileName := env.uuid ++ "-" ++ fileHeader.Filename
              let s3Key := toString authUser.ID ++ "/" ++ toString productId ++ "/" ++ uniqueFileName
              match s3PutObject env st s3Key with
              | none => (status 503, st)
              | some st1 =>
                let newImage : Image :=
                  { ImageID := 0, ProductID := productId.toNat, FileName := fileHeader.Filename,
                    S3BucketPath := s3Key, DateCreated := env.now }
                match dbInsertImage env st1 newImage with
                | none => (status 400, st1)
                | some (row, st2) => ({ status := 201, body := Body.image row }, st2)

/-- Handler DeleteImage. -/
def DeleteImage (env : Env) (user : Option User) (req : Request) (st : Store) :
    Response × Store :=
  match user with
  | none => (status 401, st)
  | some authUser =>
    let pId := atoiValue req.productId
    let iId := atoiValue req.imageId
    if req.query.length > 0 ∨ req.contentLength > 0 then (status 400, st)
    else
      match findProduct st pId with
      | none => (status 404, st)
      | some product =>
        if product.OwnerUserID ≠ authUser.ID then (status 403, st)
        else
          match findImage st iId pId with
          | none => (status 404, st)
          | some image =>
            match s3DeleteObject env st image.S3BucketPath with
            | none => (status 503, st)
            | some st1 =>
              match dbDeleteImage env st1 image with
              | none => (status 503, st1)
              | some st2 => (status 204, st2)

/-! ## controllers/userController.go and middleware/authentication.go -/

/-- Error classes of an INSERT that the handlers tell apart. -/
inductive DbError where
  | duplicateKey
  | unavailable
deriving DecidableEq, Repr

/-- Query db.DB.Where("username = ?", username).First(&user). -/
def findUserByUsername (st : Store) (username : String) : Option User :=
  st.users.find? (fun u => decide (u.Username = username))

/-- Statement db.DB.Create(&newUser): the column username is unique; the row
gets the next user id and the default timestamps. -/
def dbInsertUser (env : Env) (st : Store) (u : User) : Except DbError (User × Store) :=
  if env.insertFails then Except.error DbError.unavailable
  else if st.users.any (fun x => decide (x.Username = u.Username)) then
    Except.error DbError.duplicateKey
  else
    let row := { u with ID := st.userSeq + 1, AccountCreated := env.now,
                        AccountUpdated := env.now }
    Except.ok (row, { st with users := st.users ++ [row], userSeq := st.userSeq + 1 })

/-- Function hashPassword: the digest as a string (empty when bcrypt errors) and
whether bcrypt returned no error. -/
def hashPassword (env : Env) (password : String) : String × Bool :=
  match env.hash password with
  | some digest => (digest, true)
  | none => ("", false)

/-- The lower-case ranges of the table unicode.CaseRanges: an entry
(lo, hi, step, target) maps the runes lo, lo + step, ..., hi to target,
target + step, ...; the pairs are the simple lower-case mappings of the Unicode
Character Database, version 14.0, outside ASCII. -/
def lowerCaseRanges : List (Nat × Nat × Nat × Nat) :=
  [(0xC0, 0xD6, 1, 0xE0), (0xD8, 0xDE, 1, 0xF8), (0x100, 0x12E, 2, 0x101),
   (0x130, 0x130, 1, 0x69), (0x132, 0x136, 2, 0x133), (0x139, 0x147, 2, 0x13A),
   (0x14A, 0x176, 2, 0x14B), (0x178, 0x178, 1, 0xFF), (0x179, 0x17D, 2, 0x17A),
   (0x181, 0x181, 1, 0x253), (0x182, 0x184, 2, 0x183), (0x186, 0x186, 1, 0x254),
   (0x187, 0x187, 1, 0x188), (0x189, 0x18A, 1, 0x256), (0x18B, 0x18B, 1, 0x18C),
   (0x18E, 0x18E, 1, 0x1DD), (0x18F, 0x18F, 1, 0x259), (0x190, 0x190, 1, 0x25B),
   (0x191, 0x191, 1, 0x192), (0x193, 0x193, 1, 0x260), (0x194, 0x194, 1, 0x263),
   (0x196, 0x196, 1, 0x269), (0x197, 0x197, 1, 0x268), (0x198, 0x198, 1, 0x199),
   (0x19C, 0x19C, 1, 0x26F), (0x19D, 0x19D, 1, 0x272), (0x19F, 0x19F, 1, 0x275),
   (0x1A0, 0x1A4, 2, 0x1A1), (0x1A6, 0x1A6, 1, 0x280), (0x1A7, 0x1A7, 1, 0x1A8),
   (0x1A9, 0x1A9, 1, 0x283), (0x1AC, 0x1AC, 1, 0x1AD), (0x1AE, 0x1AE, 1, 0x288),
   (0x1AF, 0x1AF, 1, 0x1B0), (0x1B1, 0x1B2, 1, 0x28A), (0x1B3, 0x1B5, 2, 0x1B4),
   (0x1B7, 0x1B7, 1, 0x292), (0x1B8, 0x1B8, 1, 0x1B9), (0x1BC, 0x1BC, 1, 0x1BD),
   (0x1C4, 0x1C4, 1, 0x1C6), (0x1C5, 0x1C5, 1, 0x1C6), (0x1C7, 0x1C7, 1, 0x1C9),
   (0x1C8, 0x1C8, 1, 0x1C9), (0x1CA, 0x1CA, 1, 0x1CC), (0x1CB, 0x1DB, 2, 0x1CC),
   (0x1DE, 0x1EE, 2, 0x1DF), (0x1F1, 0x1F1, 1, 0x1F3), (0x1F2, 0x1F4, 2, 0x1F3),
   (0x1F6, 0x1F6, 1, 0x195), (0x1F7, 0x1F7, 1, 0x1BF), (0x1F8, 0x21E, 2, 0x1F9),
   (0x220, 0x220, 1, 0x19E), (0x222, 0x232, 2, 0x223), (0x23A, 0x23A, 1, 0x2C65),
   (0x23B, 0x23B, 1, 0x23C), (0x23D, 0x23D, 1, 0x19A), (0x23E, 0x23E, 1, 0x2C66),
   (0x241, 0x241, 1, 0x242), (0x243, 0x243, 1, 0x180), (0x244, 0x244, 1, 0x289),
   (0x245, 0x245, 1, 0x28C), (0x246, 0x24E, 2, 0x247), (0x370, 0x372, 2, 0x371),
   (0x376, 0x376, 1, 0x377), (0x37F, 0x37F, 1, 0x3F3), (0x386, 0x386, 1, 0x3AC),
   (0x388, 0x38A, 1, 0x3AD), (0x38C, 0x38C, 1, 0x3CC), (0x38E, 0x38F, 1, 0x3CD),
   (0x391, 0x3A1, 1, 0x3B1), (0x3A3, 0x3AB, 1, 0x3C3), (0x3CF, 0x3CF, 1, 0x3D7),
   (0x3D8, 0x3EE, 2, 0x3D9), (0x3F4, 0x3F4, 1, 0x3B8), (0x3F7, 0x3F7, 1, 0x3F8),
   (0x3F9, 0x3F9, 1, 0x3F2), (0x3FA, 0x3FA, 1, 0x3FB), (0x3FD, 0x3FF, 1, 0x37B),
   (0x400, 0x40F, 1, 0x450), (0x410, 0x42F, 1, 0x430), (0x460, 0x480, 2, 0x461),
   (0x48A, 0x4BE, 2, 0x48B), (0x4C0, 0x4C0, 1, 0x4CF), (0x4C1, 0x4CD, 2, 0x4C2),
   (0x4D0, 0x52E, 2, 0x4D1), (0x531, 0x556, 1, 0x561), (0x10A0, 0x10C5, 1, 0x2D00),
   (0x10C7, 0x10C7, 1, 0x2D27), (0x10CD, 0x10CD, 1, 0x2D2D), (0x13A0, 0x13EF, 1, 0xAB70),
   (0x13F0, 0x13F5, 1, 0x13F8), (0x1C90, 0x1CBA, 1, 0x10D0), (0x1CBD, 0x1CBF, 1, 0x10FD),
   (0x1E00, 0x1E94, 2, 0x1E01), (0x1E9E, 0x1E9E, 1, 0xDF), (0x1EA0, 0x1EFE, 2, 0x1EA1),
   (0x1F08, 0x1F0F, 1, 0x1F00), (0x1F18, 0x1F1D, 1, 0x1F10), (0x1F28, 0x1F2F, 1, 0x1F20),
   (0x1F38, 0x1F3F, 1, 0x1F30), (0x1F48, 0x1F4D, 1, 0x1F40), (0x1F59, 0x1F5F, 2, 0x1F51),
   (0x1F68, 0x1F6F, 1, 0x1F60), (0x1F88, 0x1F8F, 1, 0x1F80), (0x1F98, 0x1F9F, 1, 0x1F90),
   (0x1FA8, 0x1FAF, 1, 0x1FA0), (0x1FB8, 0x1FB9, 1, 0x1FB0), (0x1FBA, 0x1FBB, 1, 0x1F70),
   (0x1FBC, 0x1FBC, 1, 0x1FB3), (0x1FC8, 0x1FCB, 1, 0x1F72), (0x1FCC, 0x1FCC, 1, 0x1FC3),
   (0x1FD8, 0x1FD9, 1, 0x1FD0), (0x1FDA, 0x1FDB, 1, 0x1F76), (0x1FE8, 0x1FE9, 1, 0x1FE0),
   (0x1FEA, 0x1FEB, 1, 0x1F7A), (0x1FEC, 0x1FEC, 1, 0x1FE5), (0x1FF8, 0x1FF9, 1, 0x1F78),
   (0x1FFA, 0x1FFB, 1, 0x1F7C), (0x1FFC, 0x1FFC, 1, 0x1FF3), (0x2126, 0x2126, 1, 0x3C9),
   (0x212A, 0x212A, 1, 0x6B), (0x212B, 0x212B, 1, 0xE5), (0x2132, 0x2132, 1, 0x214E),
   (0x2160, 0x216F, 1, 0x2170), (0x2183, 0x2183, 1, 0x2184), (0x24B6, 0x24CF, 1, 0x24D0),
   (0x2C00, 0x2C2F, 1, 0x2C30), (0x2C60, 0x2C60, 1, 0x2C61), (0x2C62, 0x2C62, 1, 0x26B),
   (0x2C63, 0x2C63, 1, 0x1D7D), (0x2C64, 0x2C64, 1, 0x27D), (0x2C67, 0x2C6B, 2, 0x2C68),
   (0x2C6D, 0x2C6D, 1, 0x251), (0x2C6E, 0x2C6E, 1, 0x271), (0x2C6F, 0x2C6F, 1, 0x250),
   (0x2C70, 0x2C70, 1, 0x252), (0x2C72, 0x2C72, 1, 0x2C73), (0x2C75, 0x2C75, 1, 0x2C76),
   (0x2C7E, 0x2C7F, 1, 0x23F), (0x2C80, 0x2CE2, 2, 0x2C81), (0x2CEB, 0x2CED, 2, 0x2CEC),
   (0x2CF2, 0x2CF2, 1, 0x2CF3), (0xA640, 0xA66C, 2, 0xA641), (0xA680, 0xA69A, 2, 0xA681),
   (0xA722, 0xA72E, 2, 0xA723), (0xA732, 0xA76E, 2, 0xA733), (0xA779, 0xA77B, 2, 0xA77A),
   (0xA77D, 0xA77D, 1, 0x1D79), (0xA77E, 0xA786, 2, 0xA77F), (0xA78B, 0xA78B, 1, 0xA78C),
   (0xA78D, 0xA78D, 1, 0x265), (0xA790, 0xA792, 2, 0xA791), (0xA796, 0xA7A8, 2, 0xA797),
   (0xA7AA, 0xA7AA, 1, 0x266), (0xA7AB, 0xA7AB, 1, 0x25C), (0xA7AC, 0xA7AC, 1, 0x261),
   (0xA7AD, 0xA7AD, 1, 0x26C), (0xA7AE, 0xA7AE, 1, 0x26A), (0xA7B0, 0xA7B0, 1, 0x29E),
   (0xA7B1, 0xA7B1, 1, 0x287), (0xA7B2, 0xA7B2, 1, 0x29D), (0xA7B3, 0xA7B3, 1, 0xAB53),
   (0xA7B4, 0xA7C2, 2, 0xA7B5), (0xA7C4, 0xA7C4, 1, 0xA794), (0xA7C5, 0xA7C5, 1, 0x282),
   (0xA7C6, 0xA7C6, 1, 0x1D8E), (0xA7C7, 0xA7C9, 2, 0xA7C8), (0xA7D0, 0xA7D0, 1, 0xA7D1),
   (0xA7D6, 0xA7D8, 2, 0xA7D7), (0xA7F5, 0xA7F5, 1, 0xA7F6), (0xFF21, 0xFF3A, 1, 0xFF41),
   (0x10400, 0x10427, 1, 0x10428), (0x104B0, 0x104D3, 1, 0x104D8),
   (0x10570, 0x1057A, 1, 0x10597), (0x1057C, 0x1058A, 1, 0x105A3),
   (0x1058C, 0x10592, 1, 0x105B3), (0x10594, 0x10595, 1, 0x105BB),
   (0x10C80, 0x10CB2, 1, 0x10CC0), (0x118A0, 0x118BF, 1, 0x118C0),
   (0x16E40, 0x16E5F, 1, 0x16E60), (0x1E900, 0x1E921, 1, 0x1E922)]

/-- Function unicode.ToLower: an ASCII rune by the ASCII rule, any other rune by
the case table. -/
def toLowerRune (c : Char) : Char :=
  if c.toNat < 128 then c.toLower
  else
    match lowerCaseRanges.find? (fun r =>
        decide (r.1 ≤ c.toNat ∧ c.toNat ≤ r.2.1 ∧ (c.toNat - r.1) % r.2.2.1 = 0)) with
    | some r => Char.ofNat (r.2.2.2 + (c.toNat - r.1))
    | none => c

/-- Function strings.ToLower: every rune mapped by unicode.ToLower. -/
def toLower (s : String) : String := String.mk (s.data.map toLowerRune)

/-- Class \s of the regexp package: tab, newline, form feed, carriage return,
space. -/
def isRegexSpace (c : Char) : Bool :=
  c = '\t' || c = '\n' || c = Char.ofNat 12 || c = '\r' || c = ' '

/-- Class [^\s@]. -/
def isHandleChar (c : Char) : Bool := !isRegexSpace c && c != '@'

/-- A non-empty run of [^\s@], the pattern [^\s@]+ matched against a whole text. -/
def isHandleRun (cs : List Char) : Bool := !cs.isEmpty && cs.all isHandleChar

/-- Whole-text match of the pattern ^[^\s@]+@[^\s@]+\.[^\s@]+$ : some position i
holds '@' and some later position j holds '.', and the three parts before i,
between i and j, and after j are non-empty runs of [^\s@]. -/
def matchEmail (cs : List Char) : Bool :=
  (List.range cs.length).any (fun i =>
    (List.range cs.length).any (fun j =>
      decide (i < j) && cs.get? i == some '@' && cs.get? j == some '.' &&
      isHandleRun (cs.take i) && isHandleRun ((cs.take j).drop (i + 1)) &&
      isHandleRun (cs.drop (j + 1))))

/-- Function validateEmail. -/
def validateEmail (email : String) : Bool := matchEmail (toLower email).data

/-- Struct CreateUserRequest. -/
structure CreateUserRequest where
  FirstName : String := ""
  LastName : String := ""
  Password : String := ""
  Username : String := ""
deriving DecidableEq, Repr

/-- The json tags of CreateUserRequest. -/
def createUserFields : List String := ["first_name", "last_name", "password", "username"]

/-- One object member decoded into a CreateUserRequest by a decoder on which
DisallowUnknownFields is not set: a key that matches no field is skipped. -/
def CreateUserRequest.setField (r : CreateUserRequest) (key : String) (v : JSON) :
    Option CreateUserRequest :=
  match lookupField createUserFields key with
  | none => some r
  | some f =>
    if f = "first_name" then (decodeString r.FirstName v).map (fun s => { r with FirstName := s })
    else if f = "last_name" then
      (decodeString r.LastName v).map (fun s => { r with LastName := s })
    else if f = "password" then
      (decodeString r.Password v).map (fun s => { r with Password := s })
    else (decodeString r.Username v).map (fun s => { r with Username := s })

/-- Decoding step of c.ShouldBindJSON(&req) for a CreateUserRequest. -/
def decodeCreateUserRequest : Option JSON → Option CreateUserRequest
  | none => none
  | some JSON.null => some {}
  | some (JSON.obj kvs) => kvs.foldlM (fun r kv => r.setField kv.1 kv.2) {}
  | some _ => none

/-- The binding tags of CreateUserRequest: every field required, the password
of 8 to 12 characters. -/
def validCreateUserRequest (r : CreateUserRequest) : Bool :=
  r.FirstName != "" && r.LastName != "" && r.Password != "" &&
  decide (8 ≤ r.Password.length) && decide (r.Password.length ≤ 12) && r.Username != ""

/-- Call c.ShouldBindJSON(&req) for a CreateUserRequest: decoding, then
validation of the binding tags; none when it returns an error. -/
def ShouldBindJSON (body : Option JSON) : Option CreateUserRequest :=
  match decodeCreateUserRequest body with
  | none => none
  | some r => if validCreateUserRequest r then some r else none

/-- Handler CreateUser; the notification publish has no effect on the response
or the store. -/
def CreateUser (env : Env) (req : Request) (st : Store) : Response × Store :=
  if req.contentLength = 0 ∧ req.transferEncoding = "" then (status 400, st)
  else if req.query.length > 0 ∨ req.authorization ≠ "" then (status 400, st)
  else
    match ShouldBindJSON req.body with
    | none => (status 400, st)
    | some r =>
      if !validateEmail r.Username then (status 400, st)
      else
        match findUserByUsername st r.Username with
        | some _ => (status 400, st)
        | none =>
          let hashedPassword := (hashPassword env r.Password).1
          let newUser : User :=
            { ID := 0, FirstName := r.FirstName, LastName := r.LastName,
              Password := hashedPassword, Username := toLower r.Username,
              AccountCreated := 0, AccountUpdated := 0 }
          match dbInsertUser env st newUser with
          | Except.error DbError.duplicateKey => (status 400, st)
          | Except.error DbError.unavailable => (status 503, st)
          | Except.ok (row, st1) => ({ status := 201, body := Body.user row.view }, st1)

/-- Middleware AuthenticateUser: the response it aborts with, or the user it
attaches to the context before the next handler runs. -/
def AuthenticateUser (env : Env) (req : Request) (st : Store) : Except Response User :=
  match req.basicAuth with
  | none => Except.error (status 401)
  | some (username, password) =>
    match findUserByUsername st username with
    | none => Except.error (status 401)
    | some user =>
      if env.verify user.Password password then Except.ok user
      else Except.error (status 401)

/-- Call strconv.ParseUint(s, 10, 32): decimal digits only, no sign, value
below 2^32; none when it returns an error. -/
def ParseUint32 (s : String) : Option Nat :=
  match parseUint (2 ^ 32 - 1) s.data with
  | Except.ok n => some n
  | Except.error _ => none

/-- A route registered as `middleware.AuthenticateUser(), handler`: when the
middleware aborts, its response is the answer and the handler is not called;
otherwise the handler runs with the user attached to the context. -/
def authenticated (handler : Env → Option User → Request → Store → Response × Store)
    (env : Env) (req : Request) (st : Store) : Response × Store :=
  match AuthenticateUser env req st with
  | Except.error r => (r, st)
  | Except.ok user => handler env (some user) req st

/-- Handler GetUser. -/
def GetUser (_env : Env) (user : Option User) (req : Request) (st : Store) :
    Response × Store :=
  if req.method = "HEAD" then (status 405, st)
  else
    match user with
    | none => (status 401, st)
    | some authUser =>
      match ParseUint32 req.userId with
      | none => (status 400, st)
      | some userIdInt =>
        if req.query.length > 0 ∨ req.contentLength > 0 then (status 400, st)
        else if userIdInt ≠ authUser.ID then (status 403, st)
        else ({ status := 200, body := Body.user authUser.view }, st)

/-- Struct UpdateUserRequest; its binding tags are read by gin's binder only,
which UpdateUser does not call. -/
structure UpdateUserRequest where
  FirstName : String := ""
  LastName : String := ""
  Password : String := ""
deriving DecidableEq, Repr

/-- The json tags of UpdateUserRequest. -/
def updateUserFields : List String := ["first_name", "last_name", "password"]

/-- One object member decoded into an UpdateUserRequest with
DisallowUnknownFields set; none stands for a decoding error. -/
def UpdateUserRequest.setField (r : UpdateUserRequest) (key : String) (v : JSON) :
    Option UpdateUserRequest :=
  match lookupField updateUserFields key with
  | none => none
  | some f =>
    if f = "first_name" then (decodeString r.FirstName v).map (fun s => { r with FirstName := s })
    else if f = "last_name" then
      (decodeString r.LastName v).map (fun s => { r with LastName := s })
    else (decodeString r.Password v).map (fun s => { r with Password := s })

/-- Call decoder.Decode(&req) for an UpdateUserRequest with
DisallowUnknownFields: none when Decode returns an error. -/
def decodeUpdateUserRequest : Option JSON → Option UpdateUserRequest
  | none => none
  | some JSON.null => some {}
  | some (JSON.obj kvs) => kvs.foldlM (fun r kv => r.setField kv.1 kv.2) {}
  | some _ => none

/-- Column assignment of an UPDATE on table users; none when the value does
not fit the column or the column is unknown. The column account_updated is
declared create-only in models/user.go, so the ORM leaves its assignment out of
the UPDATE and the row keeps its value. -/
def setUserColumn (u : User) (col : String) (v : Value) : Option User :=
  if col = "first_name" then
    match v with
    | Value.string s => some { u with FirstName := s }
    | _ => none
  else if col = "last_name" then
    match v with
    | Value.string s => some { u with LastName := s }
    | _ => none
  else if col = "password" then
    match v with
    | Value.string s => some { u with Password := s }
    | _ => none
  else if col = "account_updated" then some u
  else none

/-- All column assignments of a fieldset applied to one row of users. -/
def applyUserFields (fields : GoMap) (u : User) : Option User :=
  fields.foldlM (fun row kv => setUserColumn row kv.1 kv.2) u

/-- The zero value models.User{}. -/
def zeroUser : User :=
  { ID := 0, FirstName := "", LastName := "", Password := "", Username := "",
    AccountCreated := 0, AccountUpdated := 0 }

/-- Statement db.DB.Model(&models.User{}).Where("id = ?", id).Updates(fields):
UPDATE of the rows with the given id. -/
def dbUpdateUser (env : Env) (st : Store) (id : Nat) (fields : GoMap) : Option Store :=
  if env.updateFails then none
  else
    match applyUserFields fields zeroUser with
    | none => none
    | some _ =>
      some { st with users := st.users.map (fun u =>
        if u.ID = id then (applyUserFields fields u).getD u else u) }

/-- Handler UpdateUser. -/
def UpdateUser (env : Env) (user : Option User) (req : Request) (st : Store) :
    Response × Store :=
  match user with
  | none => (status 401, st)
  | some authUser =>
    match ParseUint32 req.userId with
    | none => (status 400, st)
    | some userIdInt =>
      if req.query.length > 0 ∨ req.contentLength = 0 then (status 400, st)
      else if userIdInt ≠ authUser.ID then (status 403, st)
      else
        match decodeUpdateUserRequest req.body with
        | none => (status 400, st)
        | some r =>
          let newPassword := (hashPassword env r.Password).1
          let updates : GoMap :=
            [("first_name", Value.string r.FirstName), ("last_name", Value.string r.LastName),
             ("password", Value.string newPassword), ("account_updated", Value.time env.now)]
          match dbUpdateUser env st authUser.ID updates with
          | none => (status 400, st)
          | some st1 => (status 204, st1)

/-! ## controllers/healthController.go -/

/-- Statement db.DB.Create(&healthCheck): the row gets the next check id and
the default timestamp. -/
def dbInsertHealthCheck (env : Env) (st : Store) : Option Store :=
  if env.insertFails then none
  else
    some { st with
      healthChecks := st.healthChecks ++
        [{ CheckID := st.healthSeq + 1, CheckDatetime := env.now }],
      healthSeq := st.healthSeq + 1 }

/-- Handler GetHealth. -/
def GetHealth (env : Env) (req : Request) (st : Store) : Response × Store :=
  if req.method ≠ "GET" then (status 405, st)
  else
    let hasBody := req.contentLength > 0 ∨ req.transferEncoding ≠ ""
    let hasQueryString := req.query.length > 0
    let hasAuthHeader := req.authorization ≠ ""
    if hasBody ∨ hasQueryString ∨ hasAuthHeader then (status 400, st)
    else
      match dbInsertHealthCheck env st with
      | none => (status 503, st)
      | some st1 => (status 200, st1)

/-! ## The read handlers of productController.go and imageController.go -/

/-- Query db.DB.Find(&products); none when it returns an error. -/
def dbFindAllProducts (env : Env) (st : Store) : Option (List Product) :=
  if env.findAllFails then none else some st.products

/-- Query db.DB.Find(&images); none when it returns an error. -/
def dbFindAllImages (env : Env) (st : Store) : Option (List Image) :=
  if env.findAllFails then none else some st.images

/-- Handler GetProduct. -/
def GetProduct (_env : Env) (req : Request) (st : Store) : Response × Store :=
  if req.method = "HEAD" then (status 405, st)
  else
    match Atoi req.productId with
    | none => (status 400, st)
    | some id =>
      if !isValidRequest req false then (status 400, st)
      else
        match findProduct st id with
        | none => (status 404, st)
        | some product => ({ status := 200, body := Body.product product }, st)

/-- Handler GetAllProduct; the result of the query is not inspected, the slice
stays empty when it fails. -/
def GetAllProduct (env : Env) (req : Request) (st : Store) : Response × Store :=
  if req.method = "HEAD" then (status 405, st)
  else if !isValidRequest req false then (status 400, st)
  else
    let products := (dbFindAllProducts env st).getD []
    ({ status := 200, body := Body.products products }, st)

/-- Handler GetImage. -/
def GetImage (_env : Env) (req : Request) (st : Store) : Response × Store :=
  if req.method = "HEAD" then (status 405, st)
  else
    match Atoi req.productId, Atoi req.imageId with
    | some pId, some iId =>
      if req.query.length > 0 ∨ req.contentLength > 0 ∨ req.authorization ≠ "" then
        (status 400, st)
      else
        match findImage st iId pId with
        | none => (status 404, st)
        | some image => ({ status := 200, body := Body.image image }, st)
    | _, _ => (status 400, st)

/-- Handler GetAllImage; it returns every row of the image table, and the
result of the query is not inspected. -/
def GetAllImage (env : Env) (req : Request) (st : Store) : Response × Store :=
  if req.method = "HEAD" then (status 405, st)
  else if req.query.length > 0 ∨ req.contentLength > 0 ∨ req.authorization ≠ "" then
    (status 400, st)
  else
    let images := (dbFindAllImages env st).getD []
    ({ status := 200, body := Body.images images }, st)

/-! ## Successive store states of DeleteProduct -/

/-- The states the store goes through while DeleteProduct runs, one per DELETE
statement it issues, in the order of issue; empty when the handler returns
before its first statement. The last one is the store DeleteProduct ends in. -/
def DeleteProductStates (env : Env) (user : Option User) (req : Request) (st : Store) :
    List Store :=
  match user with
  | none => []
  | some authUser =>
    match Atoi req.productId with
    | none => []
    | some id =>
      if req.query.length > 0 ∨ req.contentLength > 0 then []
      else
        match findProduct st id with
        | none => []
        | some product =>
          if product.OwnerUserID ≠ authUser.ID then []
          else
            let st1 := (dbDeleteImagesWhere env st id).getD st
            let st2 := (dbDeleteProduct env st1 product).getD st1
            [st1, st2]

/-- No product row has the given id. -/
def NoProduct (st : Store) (id : Int) : Prop := ∀ p ∈ st.products, (p.ID : Int) ≠ id

/-- Some product row has the given id and an owner other than the user. -/
def OwnedByOther (st : Store) (id : Int) (u : User) : Prop :=
  ∃ p ∈ st.products, (p.ID : Int) = id ∧ p.OwnerUserID ≠ u.ID

/-- Both-or-neither condition on images: the locator of every image row names
a key of the bucket, and every key of the bucket is the locator of some row. -/
def Consistent (st : Store) : Prop :=
  (∀ img ∈ st.images, img.S3BucketPath ∈ st.blobs) ∧
  (∀ k ∈ st.blobs, ∃ img ∈ st.images, img.S3BucketPath = k)

/-- Two image rows have the same locator exactly when they have the same id. -/
def DistinctLocators (st : Store) : Prop :=
  ∀ i ∈ st.images, ∀ j ∈ st.images, i.S3BucketPath = j.S3BucketPath ↔ i.ImageID = j.ImageID

instance (st : Store) : Decidable (Consistent st) := by
  unfold Consistent
  infer_instance

instance (st : Store) (id : Int) : Decidable (NoProduct st id) := by
  unfold NoProduct
  infer_instance

instance (st : Store) (id : Int) (u : User) : Decidable (OwnedByOther st id u) := by
  unfold OwnedByOther
  infer_instance

/-- The members of a product payload: the four text attributes and a
quantity value. -/
def productMembers (n d s m : String) (qv : JSON) : List (String × JSON) :=
  [("name", JSON.str n), ("description", JSON.str d), ("sku", JSON.str s),
   ("manufacturer", JSON.str m), ("quantity", qv)]

/-- An object holds exactly the given members, in any order. -/
def HoldsExactly (kvs members : List (String × JSON)) : Prop :=
  (∀ kv ∈ kvs, kv ∈ members) ∧ (∀ kv ∈ members, kv ∈ kvs)

/-- The value of a JSON number as a float64, none for any other JSON value. -/
def JSON.number? : JSON → Option ℚ
  | JSON.int i => some (i : ℚ)
  | JSON.frac q => some q
  | _ => none

/-- The entries the decoded map of a product payload can hold. -/
def productEntries (n d s m : String) (qv : JSON) : List (String × Value) :=
  (productMembers n d s m qv).map (fun kv => (kv.1, kv.2.toValue))

/-- The response is 400 and the store is left as it was. -/
def Rejected (r : Response × Store) (st : Store) : Prop := r.1.status = 400 ∧ r.2 = st

/-- The quantity values -1, 101, 150 and 2.5. -/
def rejectedQuantities : List JSON :=
  [JSON.int (-1), JSON.int 101, JSON.int 150, JSON.frac (5 / 2)]

/-- The members of an account update payload: first name, last name and
password as JSON strings. -/
def userMembers (f l p : String) : List (String × JSON) :=
  [("first_name", JSON.str f), ("last_name", JSON.str l), ("password", JSON.str p)]

/-- No image row references the product id unless a product row has that id. -/
def NoDangling (st : Store) (id : Int) : Prop :=
  (∃ img ∈ st.images, (img.ProductID : Int) = id) → ∃ p ∈ st.products, (p.ID : Int) = id

/-- The content types CreateImage lets through: JPEG, under two names, and PNG. -/
def allowedImageTypes : List String := ["image/jpeg", "image/png", "image/jpg"]

/-- The simple email shape in the words of the specification: a non-empty local
part, one '@' and a non-empty domain part, with no whitespace and no second
'@' anywhere. -/
def SimpleEmailShape (cs : List Char) : Prop :=
  ∃ loc dom : List Char, cs = loc ++ '@' :: dom ∧
    isHandleRun loc = true ∧ isHandleRun dom = true

/-- The shape the pattern of validateEmail describes: the simple email shape
whose domain part holds a '.' with at least one character on each side. -/
def DottedEmailShape (cs : List Char) : Prop :=
  ∃ loc a b : List Char, cs = loc ++ '@' :: (a ++ '.' :: b) ∧
    isHandleRun loc = true ∧ isHandleRun a = true ∧ isHandleRun b = true

/-- Account with id 1. -/
def alice : User :=
  { ID := 1, FirstName := "Alice", LastName := "A", Password := "digest-of-alice",
    Username := "alice@example.com", AccountCreated := 0, AccountUpdated := 0 }

/-- Account with id 2. -/
def bob : User :=
  { ID := 2, FirstName := "Bob", LastName := "B", Password := "digest-of-bob",
    Username := "bob@example.com", AccountCreated := 0, AccountUpdated := 0 }

/-- Product with id 1 owned by alice. -/
def widget : Product :=
  { ID := 1, Name := "X", Description := "Y", Sku := "S", Manufacturer := "M", Quantity := 50,
    DateAdded := 0, DateLastUpdated := 0, OwnerUserID := 1 }

/-- Image with id 1 of the product widget. -/
def photo : Image :=
  { ImageID := 1, ProductID := 1, FileName := "f.png", DateCreated := 0,
    S3BucketPath := "1/1/u-f.png" }

/-- Store holding alice, bob, the widget, its photo and the blob of the photo. -/
def sampleStore : Store :=
  { users := [alice, bob], products := [widget], images := [photo], blobs := ["1/1/u-f.png"],
    userSeq := 2, productSeq := 1, imageSeq := 1 }

/-- Collaborators that all succeed; the digest of p is written bcrypt(p). -/
def sampleEnv : Env :=
  { hash := fun p => some ("bcrypt(" ++ p ++ ")"),
    verify := fun digest p => digest == "bcrypt(" ++ p ++ ")" }

/-- Collaborators that succeed, with a hasher that, like bcrypt, returns an
error for a password of more than 72 bytes. -/
def bcryptEnv : Env :=
  { hash := fun p => if p.utf8ByteSize > 72 then none else some ("bcrypt(" ++ p ++ ")"),
    verify := fun digest p => digest == "bcrypt(" ++ p ++ ")" }

/-- Password of 73 bytes. -/
def longPassword : String :=
  "0123456789012345678901234567890123456789012345678901234567890123456789012"

/-- Attached file of an allowed content type. -/
def pngFile : FileHeader := { Filename := "g.png", ContentType := "image/png" }

/-- Product payload with the text attributes X, Y, S, M and the given quantity. -/
def productBody (qv : JSON) : JSON := JSON.obj (productMembers "X" "Y" "S" "M" qv)

/-- POST of a product payload with the given quantity. -/
def createRequest (qv : JSON) : Request :=
  { method := "POST", contentLength := 80, body := some (productBody qv) }

/-- PATCH of product 1 with a product payload with the given quantity. -/
def patchRequest (qv : JSON) : Request :=
  { method := "PATCH", productId := "1", contentLength := 80, body := some (productBody qv) }

/-! ## Theorems -/

theorem findProduct_some {st : Store} {id : Int} {p : Product}
    (h : findProduct st id = some p) : p ∈ st.products ∧ (p.ID : Int) = id := by
  unfold findProduct at h
  exact ⟨List.mem_of_find?_eq_some h, by simpa using List.find?_some h⟩

theorem findProduct_none {st : Store} {id : Int} (h : NoProduct st id) :
    findProduct st id = none := by
  unfold findProduct
  rw [List.find?_eq_none]
  intro p hp
  simpa using h p hp

/-- C1: in every execution of CreateImage whose blob put fails the Image table
is left as it was, so a row is inserted only after a put that succeeded; and a
request that passes authentication, validation (no query string, an attached
file of an allowed content type that can be opened), the product lookup and the
ownership check is answered 503 with the whole store unchanged when the blob
put fails. -/
theorem createImage_put_failure (env : Env) (user : Option User) (req : Request) (st : Store) :
    (env.blobPutFails = true → (CreateImage env user req st).2.images = st.images) ∧
    (∀ (authUser : User) (f : FileHeader) (p : Product),
      user = some authUser → req.query = [] → req.file = some f →
      (f.ContentType = "image/jpeg" ∨ f.ContentType = "image/png" ∨
        f.ContentType = "image/jpg") →
      findProduct st (atoiValue req.productId) = some p → p.OwnerUserID = authUser.ID →
      f.opens = true → env.blobPutFails = true →
      (CreateImage env user req st).1.status = 503 ∧ (CreateImage env user req st).2 = st) := by
  constructor
  · intro hfail
    unfold CreateImage
    simp only [s3PutObject, hfail, if_true]
    repeat' split
    all_goals rfl
  · intro authUser f p hu hq hf hct hp hown hopen hfail
    subst hu
    have hct2 : ¬ (f.ContentType ≠ "image/jpeg" ∧ f.ContentType ≠ "image/png" ∧
        f.ContentType ≠ "image/jpg") := by
      rcases hct with h | h | h <;> simp [h]
    simp [CreateImage, hq, hf, hct2, hp, hown, hopen, s3PutObject, hfail, status]

/-- Instance of C1: alice uploads a png for her widget while the blob put fails. -/
theorem createImage_put_failure_witness :
    (CreateImage { blobPutFails := true } (some alice)
        { method := "POST", productId := "1", file := some pngFile } sampleStore).1.status = 503 ∧
    (CreateImage { blobPutFails := true } (some alice)
        { method := "POST", productId := "1", file := some pngFile } sampleStore).2 = sampleStore :=
  (createImage_put_failure { blobPutFails := true } (some alice)
      { method := "POST", productId := "1", file := some pngFile } sampleStore).2
    alice pngFile widget rfl rfl rfl (Or.inr (Or.inl rfl)) (by decide) rfl rfl rfl

/-- C2: in every execution of DeleteImage whose blob delete fails the Image
table is left as it was, so the row is deleted only after a blob delete that
succeeded; and a request that reaches the blob delete (no query string, no
body, product found and owned by the principal, image resolved by image id and
product id) is answered 503 when the blob delete fails, with the store
unchanged and the row still resolved by the same pair of ids. -/
theorem deleteImage_blob_failure (env : Env) (user : Option User) (req : Request) (st : Store) :
    (env.blobDeleteFails = true → (DeleteImage env user req st).2.images = st.images) ∧
    (∀ (authUser : User) (p : Product) (img : Image),
      user = some authUser → req.query = [] → req.contentLength ≤ 0 →
      findProduct st (atoiValue req.productId) = some p → p.OwnerUserID = authUser.ID →
      findImage st (atoiValue req.imageId) (atoiValue req.productId) = some img →
      env.blobDeleteFails = true →
      (DeleteImage env user req st).1.status = 503 ∧
      (DeleteImage env user req st).2 = st ∧
      img ∈ (DeleteImage env user req st).2.images ∧
      findImage (DeleteImage env user req st).2 (atoiValue req.imageId)
        (atoiValue req.productId) = some img) := by
  constructor
  · intro hfail
    unfold DeleteImage
    simp only [s3DeleteObject, hfail, if_true]
    repeat' split
    all_goals rfl
  · intro authUser p img hu hq hlen hp hown himg hfail
    subst hu
    have hst : DeleteImage env (some authUser) req st = (status 503, st) := by
      simp [DeleteImage, hq, not_lt.mpr hlen, hp, hown, himg, s3DeleteObject, hfail]
    rw [hst]
    refine ⟨rfl, rfl, ?_, himg⟩
    unfold findImage at himg
    exact List.mem_of_find?_eq_some himg

/-- Instance of C2: alice deletes the photo of her widget while the blob delete
fails. -/
theorem deleteImage_blob_failure_witness :
    (DeleteImage { blobDeleteFails := true } (some alice)
        { method := "DELETE", productId := "1", imageId := "1" } sampleStore).1.status = 503 ∧
    (DeleteImage { blobDeleteFails := true } (some alice)
        { method := "DELETE", productId := "1", imageId := "1" } sampleStore).2 = sampleStore ∧
    photo ∈ (DeleteImage { blobDeleteFails := true } (some alice)
        { method := "DELETE", productId := "1", imageId := "1" } sampleStore).2.images ∧
    findImage (DeleteImage { blobDeleteFails := true } (some alice)
        { method := "DELETE", productId := "1", imageId := "1" } sampleStore).2
      (atoiValue "1") (atoiValue "1") = some photo :=
  (deleteImage_blob_failure { blobDeleteFails := true } (some alice)
      { method := "DELETE", productId := "1", imageId := "1" } sampleStore).2
    alice widget photo rfl rfl (by decide) (by decide) rfl (by decide) rfl

/-- C3, evaluated at a failing input: in a store satisfying the both-or-neither
condition, the owner deletes a product that has one image while every store
call succeeds; DeleteProduct answers 204, removes the image row and leaves its
blob in the bucket, so the condition no longer holds. -/
theorem deleteProduct_orphans_blob :
    Consistent sampleStore ∧
    (DeleteProduct {} (some alice) { method := "DELETE", productId := "1" } sampleStore).1.status
      = 204 ∧
    (DeleteProduct {} (some alice) { method := "DELETE", productId := "1" } sampleStore).2.images
      = [] ∧
    (DeleteProduct {} (some alice) { method := "DELETE", productId := "1" } sampleStore).2.blobs
      = ["1/1/u-f.png"] ∧
    ¬ Consistent
      (DeleteProduct {} (some alice) { method := "DELETE", productId := "1" } sampleStore).2 := by
  decide

theorem dbUpdateProduct_keeps_images {env : Env} {st st1 : Store} {p : Product} {f : GoMap}
    (h : dbUpdateProduct env st p f = some st1) :
    st1.images = st.images ∧ st1.blobs = st.blobs := by
  unfold dbUpdateProduct at h
  split at h
  · simp at h
  · split at h
    · simp at h
    · simp only [Option.some.injEq] at h
      subst h
      exact ⟨rfl, rfl⟩

/-- Product replace and product patch touch neither the image table nor the
bucket. -/
theorem update_keeps_images (env : Env) (user : Option User) (req : Request) (st : Store) :
    ((UpdatePutProduct env user req st).2.images = st.images ∧
      (UpdatePutProduct env user req st).2.blobs = st.blobs) ∧
    ((UpdatePatchProduct env user req st).2.images = st.images ∧
      (UpdatePatchProduct env user req st).2.blobs = st.blobs) := by
  constructor
  · unfold UpdatePutProduct
    repeat' first | split | (dsimp only; split)
    all_goals first | exact ⟨rfl, rfl⟩ | exact dbUpdateProduct_keeps_images (by assumption)
  · unfold UpdatePatchProduct
    repeat' split
    all_goals first | exact ⟨rfl, rfl⟩ | exact dbUpdateProduct_keeps_images (by assumption)

theorem s3PutObject_blobs {env : Env} {st st1 : Store} {key : String}
    (h : s3PutObject env st key = some st1) :
    st1.images = st.images ∧ key ∈ st1.blobs ∧ (∀ k ∈ st.blobs, k ∈ st1.blobs) ∧
      ∀ k ∈ st1.blobs, k ∈ st.blobs ∨ k = key := by
  unfold s3PutObject at h
  split at h
  · simp at h
  · simp only [Option.some.injEq] at h
    subst h
    refine ⟨rfl, ?_, ?_, ?_⟩
    · by_cases hk : key ∈ st.blobs <;> simp [hk]
    · intro k hk1
      by_cases hk : key ∈ st.blobs <;> simp [hk, hk1]
    · intro k hk1
      by_cases hk : key ∈ st.blobs
      · simp only [hk, if_true] at hk1
        exact Or.inl hk1
      · simp only [hk, if_false] at hk1
        simpa using hk1

theorem dbInsertImage_images {env : Env} {st st2 : Store} {img row : Image}
    (h : dbInsertImage env st img = some (row, st2)) :
    st2.images = st.images ++ [row] ∧ st2.blobs = st.blobs ∧
      row.S3BucketPath = img.S3BucketPath := by
  unfold dbInsertImage at h
  split at h
  · simp at h
  · simp only [Option.some.injEq, Prod.mk.injEq] at h
    obtain ⟨h1, h2⟩ := h
    subst h1
    subst h2
    exact ⟨rfl, rfl, rfl⟩

theorem createImage_created (env : Env) (user : Option User) (req : Request) (st : Store) :
    (CreateImage env user req st).1.status = 201 →
    ∃ (key : String) (st1 : Store) (img row : Image),
      s3PutObject env st key = some st1 ∧
      dbInsertImage env st1 img = some (row, (CreateImage env user req st).2) ∧
      img.S3BucketPath = key := by
  unfold CreateImage
  repeat' first | split | (dsimp only; split)
  all_goals first | (intro hok; simp [status] at hok; done) | skip
  intro _hok
  rename_i st1 hput _ row st2 hins
  exact ⟨_, st1, _, row, hput, hins, rfl⟩

/-- A CreateImage that answers 201 keeps the both-or-neither condition. -/
theorem createImage_keeps_consistent (env : Env) (user : Option User) (req : Request)
    (st : Store) (h : Consistent st) (hok : (CreateImage env user req st).1.status = 201) :
    Consistent (CreateImage env user req st).2 := by
  obtain ⟨key, st1, img, row, hput, hins, hkey⟩ := createImage_created env user req st hok
  obtain ⟨hi1, hb1, hb2, hb3⟩ := s3PutObject_blobs hput
  obtain ⟨hi2, hb4, hrow⟩ := dbInsertImage_images hins
  obtain ⟨hc1, hc2⟩ := h
  unfold Consistent
  rw [hi2, hb4, hi1]
  constructor
  · intro x hx
    rcases List.mem_append.mp hx with hx | hx
    · exact hb2 _ (hc1 x hx)
    · have : x = row := by simpa using hx
      rw [this, hrow, hkey]
      exact hb1
  · intro k hk
    rcases hb3 k hk with hk | hk
    · obtain ⟨x, hx, hxk⟩ := hc2 k hk
      exact ⟨x, List.mem_append.mpr (Or.inl hx), hxk⟩
    · exact ⟨row, by simp, by rw [hrow, hkey, hk]⟩

theorem deleteImage_deleted (env : Env) (user : Option User) (req : Request) (st : Store) :
    (DeleteImage env user req st).1.status = 204 →
    ∃ (img : Image),
      img ∈ st.images ∧
      (DeleteImage env user req st).2.blobs =
        st.blobs.filter (fun k => decide (k ≠ img.S3BucketPath)) ∧
      (DeleteImage env user req st).2.images =
        st.images.filter (fun i => decide (i.ImageID ≠ img.ImageID)) := by
  unfold DeleteImage
  repeat' first | split | (dsimp only; split)
  all_goals first | (intro hok; simp [status] at hok; done) | skip
  intro _hok
  rename_i image himg _ st1 hdel _ st2 hdb
  refine ⟨image, ?_, ?_, ?_⟩
  · unfold findImage at himg
    exact List.mem_of_find?_eq_some himg
  · unfold s3DeleteObject at hdel
    unfold dbDeleteImage at hdb
    split at hdel <;> split at hdb <;> simp_all
    rw [← hdb, ← hdel]
  · unfold s3DeleteObject at hdel
    unfold dbDeleteImage at hdb
    split at hdel <;> split at hdb <;> simp_all
    rw [← hdb, ← hdel]

/-- A DeleteImage that answers 204 keeps the both-or-neither condition when no
two image rows share a locator. -/
theorem deleteImage_keeps_consistent (env : Env) (user : Option User) (req : Request)
    (st : Store) (h : Consistent st) (hd : DistinctLocators st)
    (hok : (DeleteImage env user req st).1.status = 204) :
    Consistent (DeleteImage env user req st).2 := by
  obtain ⟨img, himg, hb, hi⟩ := deleteImage_deleted env user req st hok
  obtain ⟨hc1, hc2⟩ := h
  unfold Consistent
  rw [hb, hi]
  constructor
  · intro x hx
    obtain ⟨hx1, hx2⟩ := List.mem_filter.mp hx
    refine List.mem_filter.mpr ⟨hc1 x hx1, ?_⟩
    have hne : x.ImageID ≠ img.ImageID := by simpa using hx2
    have : x.S3BucketPath ≠ img.S3BucketPath := fun heq => hne ((hd x hx1 img himg).mp heq)
    simpa using this
  · intro k hk
    obtain ⟨hk1, hk2⟩ := List.mem_filter.mp hk
    obtain ⟨x, hx, hxk⟩ := hc2 k hk1
    have hne : k ≠ img.S3BucketPath := by simpa using hk2
    refine ⟨x, List.mem_filter.mpr ⟨hx, ?_⟩, hxk⟩
    have : x.ImageID ≠ img.ImageID := by
      intro heq
      exact hne (hxk ▸ (hd x hx img himg).mpr heq)
    simpa using this

/-- C4: ownership is checked only after existence. For DeleteProduct, product
replace, product patch, CreateImage and DeleteImage: a well-formed request by an
authenticated principal naming a product id that no row has is answered 404;
and whenever the handler answers 403, a principal is attached, a product row
with the path id exists, and its owner reference differs from the principal id. -/
theorem ownership_after_existence (env : Env) (user : Option User) (req : Request)
    (st : Store) :
    (∀ (u : User) (id : Int), user = some u → Atoi req.productId = some id →
      req.query = [] → req.contentLength ≤ 0 → NoProduct st id →
      (DeleteProduct env user req st).1.status = 404) ∧
    (∀ (u : User) (id : Int), user = some u → Atoi req.productId = some id →
      isValidRequest req true = true → NoProduct st id →
      (UpdatePutProduct env user req st).1.status = 404 ∧
      (UpdatePatchProduct env user req st).1.status = 404) ∧
    (∀ (u : User) (f : FileHeader), user = some u → req.query = [] → req.file = some f →
      (f.ContentType = "image/jpeg" ∨ f.ContentType = "image/png" ∨
        f.ContentType = "image/jpg") →
      NoProduct st (atoiValue req.productId) →
      (CreateImage env user req st).1.status = 404) ∧
    (∀ (u : User), user = some u → req.query = [] → req.contentLength ≤ 0 →
      NoProduct st (atoiValue req.productId) →
      (DeleteImage env user req st).1.status = 404) ∧
    ((DeleteProduct env user req st).1.status = 403 →
      ∃ u id, user = some u ∧ Atoi req.productId = some id ∧ OwnedByOther st id u) ∧
    ((UpdatePutProduct env user req st).1.status = 403 →
      ∃ u id, user = some u ∧ Atoi req.productId = some id ∧ OwnedByOther st id u) ∧
    ((UpdatePatchProduct env user req st).1.status = 403 →
      ∃ u id, user = some u ∧ Atoi req.productId = some id ∧ OwnedByOther st id u) ∧
    ((CreateImage env user req st).1.status = 403 →
      ∃ u, user = some u ∧ OwnedByOther st (atoiValue req.productId) u) ∧
    ((DeleteImage env user req st).1.status = 403 →
      ∃ u, user = some u ∧ OwnedByOther st (atoiValue req.productId) u) := by
  refine ⟨?_, ?_, ?_, ?_, ?_, ?_, ?_, ?_, ?_⟩
  · intro u id hu hid hq hlen hno
    subst hu
    simp [DeleteProduct, hid, hq, not_lt.mpr hlen, findProduct_none hno, status]
  · intro u id hu hid hv hno
    subst hu
    constructor
    · simp [UpdatePutProduct, hid, hv, findProduct_none hno, status]
    · simp [UpdatePatchProduct, hid, hv, findProduct_none hno, status]
  · intro u f hu hq hf hct hno
    subst hu
    have hct2 : ¬ (f.ContentType ≠ "image/jpeg" ∧ f.ContentType ≠ "image/png" ∧
        f.ContentType ≠ "image/jpg") := by
      rcases hct with h | h | h <;> simp [h]
    simp [CreateImage, hq, hf, hct2, findProduct_none hno, status]
  · intro u hu hq hlen hno
    subst hu
    simp [DeleteImage, hq, not_lt.mpr hlen, findProduct_none hno, status]
  · intro h
    cases user with
    | none => simp [DeleteProduct, status] at h
    | some u =>
      cases hid : Atoi req.productId with
      | none => simp [DeleteProduct, hid, status] at h
      | some id =>
        cases hp : findProduct st id with
        | none =>
          simp only [DeleteProduct, hid, hp, status] at h
          split_ifs at h <;> simp_all
        | some p =>
          by_cases hown : p.OwnerUserID = u.ID
          · exfalso
            simp only [DeleteProduct, hid, hp, status] at h
            repeat' split at h
            all_goals simp_all
          · exact ⟨u, id, rfl, rfl, p, (findProduct_some hp).1, (findProduct_some hp).2, hown⟩
  · intro h
    cases user with
    | none => simp [UpdatePutProduct, status] at h
    | some u =>
      cases hid : Atoi req.productId with
      | none => simp [UpdatePutProduct, hid, status] at h
      | some id =>
        cases hp : findProduct st id with
        | none =>
          simp only [UpdatePutProduct, hid, hp, status] at h
          split_ifs at h <;> simp_all
        | some p =>
          by_cases hown : p.OwnerUserID = u.ID
          · exfalso
            simp only [UpdatePutProduct, hid, hp, status] at h
            repeat' split at h
            all_goals simp_all
          · exact ⟨u, id, rfl, rfl, p, (findProduct_some hp).1, (findProduct_some hp).2, hown⟩
  · intro h
    cases user with
    | none => simp [UpdatePatchProduct, status] at h
    | some u =>
      cases hid : Atoi req.productId with
      | none => simp [UpdatePatchProduct, hid, status] at h
      | some id =>
        cases hp : findProduct st id with
        | none =>
          simp only [UpdatePatchProduct, hid, hp, status] at h
          split_ifs at h <;> simp_all
        | some p =>
          by_cases hown : p.OwnerUserID = u.ID
          · exfalso
            simp only [UpdatePatchProduct, hid, hp, status] at h
            repeat' split at h
            all_goals simp_all
          · exact ⟨u, id, rfl, rfl, p, (findProduct_some hp).1, (findProduct_some hp).2, hown⟩
  · intro h
    cases user with
    | none => simp [CreateImage, status] at h
    | some u =>
      cases hp : findProduct st (atoiValue req.productId) with
      | none =>
        exfalso
        simp only [CreateImage, hp, status] at h
        repeat' split at h
        all_goals simp_all
      | some p =>
        by_cases hown : p.OwnerUserID = u.ID
        · exfalso
          simp only [CreateImage, hp, status] at h
          repeat' split at h
          all_goals simp_all
        · exact ⟨u, rfl, p, (findProduct_some hp).1, (findProduct_some hp).2, hown⟩
  · intro h
    cases user with
    | none => simp [DeleteImage, status] at h
    | some u =>
      cases hp : findProduct st (atoiValue req.productId) with
      | none =>
        exfalso
        simp only [DeleteImage, hp, status] at h
        repeat' split at h
        all_goals simp_all
      | some p =>
        by_cases hown : p.OwnerUserID = u.ID
        · exfalso
          simp only [DeleteImage, hp, status] at h
          repeat' split at h
          all_goals simp_all
        · exact ⟨u, rfl, p, (findProduct_some hp).1, (findProduct_some hp).2, hown⟩

/-- Instance of C4: bob deletes product 7, which no row has, and gets 404; bob
deletes product 1, owned by alice, and the 403 he gets comes with a row of id 1
whose owner is not bob. -/
theorem ownership_after_existence_witness :
    (DeleteProduct {} (some bob) { method := "DELETE", productId := "7" } sampleStore).1.status
      = 404 ∧
    (DeleteProduct {} (some bob) { method := "DELETE", productId := "1" } sampleStore).1.status
      = 403 ∧
    OwnedByOther sampleStore 1 bob := by
  have h404 := (ownership_after_existence {} (some bob)
    { method := "DELETE", productId := "7" } sampleStore).1 bob 7 rfl (by decide) rfl
    (by decide) (by decide)
  have h403 : (DeleteProduct {} (some bob) { method := "DELETE", productId := "1" }
      sampleStore).1.status = 403 := by decide
  obtain ⟨u, id, hu, hid, hown⟩ := (ownership_after_existence {} (some bob)
    { method := "DELETE", productId := "1" } sampleStore).2.2.2.2.1 h403
  have hu2 : u = bob := (Option.some.inj hu).symm
  have hid2 : id = 1 := by
    have h1 : Atoi "1" = some 1 := by decide
    exact (Option.some.inj (h1.symm.trans hid)).symm
  subst hu2
  subst hid2
  exact ⟨h404, h403, hown⟩

/-- C5: a PATCH by an authenticated principal b with a numeric product id, no
query string and a declared body is answered 403, with the store unchanged,
when the lookup resolves a product whose owner is not b, and 404 when no row
has that id; this holds for every payload, the body being read only after both
checks. -/
theorem patch_checks_precede_payload (env : Env) (b : User) (req : Request) (st : Store)
    (id : Int) (body : Option JSON)
    (hid : Atoi req.productId = some id) (hq : req.query = [])
    (hbody : req.contentLength ≠ 0 ∨ req.transferEncoding ≠ "") :
    (∀ p : Product, findProduct st id = some p → p.OwnerUserID ≠ b.ID →
      (UpdatePatchProduct env (some b) { req with body := body } st).1.status = 403 ∧
      (UpdatePatchProduct env (some b) { req with body := body } st).2 = st) ∧
    (NoProduct st id →
      (UpdatePatchProduct env (some b) { req with body := body } st).1.status = 404 ∧
      (UpdatePatchProduct env (some b) { req with body := body } st).2 = st) := by
  have hv : isValidRequest { req with body := body } true = true := by
    unfold isValidRequest
    simp only [hq, List.length_nil, gt_iff_lt, lt_self_iff_false, if_false, if_true]
    rcases hbody with h | h <;> simp [h]
  constructor
  · intro p hp hown
    simp [UpdatePatchProduct, hid, hv, hp, hown, status]
  · intro hno
    simp [UpdatePatchProduct, hid, hv, findProduct_none hno, status]

/-- Instance of C5: bob patches the widget of alice, and a product that does
not exist, with a payload that would not decode. -/
theorem patch_checks_precede_payload_witness :
    ((UpdatePatchProduct {} (some bob)
        { method := "PATCH", productId := "1", contentLength := 7, body := none }
        sampleStore).1.status = 403 ∧
      (UpdatePatchProduct {} (some bob)
        { method := "PATCH", productId := "1", contentLength := 7, body := none }
        sampleStore).2 = sampleStore) ∧
    ((UpdatePatchProduct {} (some bob)
        { method := "PATCH", productId := "9", contentLength := 7, body := none }
        sampleStore).1.status = 404 ∧
      (UpdatePatchProduct {} (some bob)
        { method := "PATCH", productId := "9", contentLength := 7, body := none }
        sampleStore).2 = sampleStore) :=
  ⟨(patch_checks_precede_payload {} bob { method := "PATCH", productId := "1", contentLength := 7 }
      sampleStore 1 none (by decide) rfl (Or.inl (by decide))).1 widget (by decide) (by decide),
   (patch_checks_precede_payload {} bob { method := "PATCH", productId := "9", contentLength := 7 }
      sampleStore 9 none (by decide) rfl (Or.inl (by decide))).2 (by decide)⟩

theorem setField_name (r : ProductRequest) (n : String) :
    r.setField "name" (JSON.str n) = some { r with Name := n } := by
  simp [ProductRequest.setField, show lookupField productFields "name" = some "name" by decide,
    decodeString]

theorem setField_description (r : ProductRequest) (n : String) :
    r.setField "description" (JSON.str n) = some { r with Description := n } := by
  simp [ProductRequest.setField,
    show lookupField productFields "description" = some "description" by decide, decodeString]

theorem setField_sku (r : ProductRequest) (n : String) :
    r.setField "sku" (JSON.str n) = some { r with Sku := n } := by
  simp [ProductRequest.setField, show lookupField productFields "sku" = some "sku" by decide,
    decodeString]

theorem setField_manufacturer (r : ProductRequest) (n : String) :
    r.setField "manufacturer" (JSON.str n) = some { r with Manufacturer := n } := by
  simp [ProductRequest.setField,
    show lookupField productFields "manufacturer" = some "manufacturer" by decide, decodeString]

theorem setField_quantity (r : ProductRequest) (qv : JSON) :
    r.setField "quantity" qv = (decodeIntPtr qv).map (fun q => { r with Quantity := q }) := by
  simp [ProductRequest.setField,
    show lookupField productFields "quantity" = some "quantity" by decide]

open Classical in
theorem decode_members_some (n d s m : String) (qv : JSON) (q : Option Int)
    (hq : decodeIntPtr qv = some q) (kvs : List (String × JSON)) :
    ∀ acc : ProductRequest, (∀ kv ∈ kvs, kv ∈ productMembers n d s m qv) →
      ∃ r, kvs.foldlM (fun r kv => r.setField kv.1 kv.2) acc = some r ∧
        r.Name = (if ("name", JSON.str n) ∈ kvs then n else acc.Name) ∧
        r.Description = (if ("description", JSON.str d) ∈ kvs then d else acc.Description) ∧
        r.Sku = (if ("sku", JSON.str s) ∈ kvs then s else acc.Sku) ∧
        r.Manufacturer = (if ("manufacturer", JSON.str m) ∈ kvs then m else acc.Manufacturer) ∧
        r.Quantity = (if ("quantity", qv) ∈ kvs then q else acc.Quantity) := by
  induction kvs with
  | nil => intro acc _; exact ⟨acc, rfl, by simp⟩
  | cons kv rest ih =>
    intro acc hall
    have hkv := hall kv (List.mem_cons_self _ _)
    have hrest : ∀ kv ∈ rest, kv ∈ productMembers n d s m qv :=
      fun x hx => hall x (List.mem_cons_of_mem _ hx)
    simp only [productMembers, List.mem_cons, List.mem_singleton, List.not_mem_nil, or_false] at hkv
    rcases hkv with h | h | h | h | h
    · obtain ⟨r, hr, h1, h2, h3, h4, h5⟩ := ih { acc with Name := n } hrest
      refine ⟨r, ?_, ?_, ?_, ?_, ?_, ?_⟩
      · simp [h, List.foldlM, setField_name, hr]
      all_goals simp_all
    · obtain ⟨r, hr, h1, h2, h3, h4, h5⟩ := ih { acc with Description := d } hrest
      refine ⟨r, ?_, ?_, ?_, ?_, ?_, ?_⟩
      · simp [h, List.foldlM, setField_description, hr]
      all_goals simp_all
    · obtain ⟨r, hr, h1, h2, h3, h4, h5⟩ := ih { acc with Sku := s } hrest
      refine ⟨r, ?_, ?_, ?_, ?_, ?_, ?_⟩
      · simp [h, List.foldlM, setField_sku, hr]
      all_goals simp_all
    · obtain ⟨r, hr, h1, h2, h3, h4, h5⟩ := ih { acc with Manufacturer := m } hrest
      refine ⟨r, ?_, ?_, ?_, ?_, ?_, ?_⟩
      · simp [h, List.foldlM, setField_manufacturer, hr]
      all_goals simp_all
    · obtain ⟨r, hr, h1, h2, h3, h4, h5⟩ := ih { acc with Quantity := q } hrest
      refine ⟨r, ?_, ?_, ?_, ?_, ?_, ?_⟩
      · simp [h, List.foldlM, setField_quantity, hq, hr]
      all_goals simp_all

theorem decode_members_none (n d s m : String) (qv : JSON)
    (hq : decodeIntPtr qv = none) (kvs : List (String × JSON)) :
    ∀ acc : ProductRequest, (∀ kv ∈ kvs, kv ∈ productMembers n d s m qv) →
      ("quantity", qv) ∈ kvs →
      kvs.foldlM (fun r kv => r.setField kv.1 kv.2) acc = none := by
  induction kvs with
  | nil => intro acc _ h; simp at h
  | cons kv rest ih =>
    intro acc hall hmem
    have hkv := hall kv (List.mem_cons_self _ _)
    have hrest : ∀ kv ∈ rest, kv ∈ productMembers n d s m qv :=
      fun x hx => hall x (List.mem_cons_of_mem _ hx)
    simp only [productMembers, List.mem_cons, List.mem_singleton, List.not_mem_nil, or_false] at hkv
    rcases hkv with h | h | h | h | h
    · have hm : ("quantity", qv) ∈ rest := by simp_all
      simp [h, List.foldlM, setField_name, ih _ hrest hm]
    · have hm : ("quantity", qv) ∈ rest := by simp_all
      simp [h, List.foldlM, setField_description, ih _ hrest hm]
    · have hm : ("quantity", qv) ∈ rest := by simp_all
      simp [h, List.foldlM, setField_sku, ih _ hrest hm]
    · have hm : ("quantity", qv) ∈ rest := by simp_all
      simp [h, List.foldlM, setField_manufacturer, ih _ hrest hm]
    · simp [h, List.foldlM, setField_quantity, hq]

theorem decode_exact (n d s m : String) (qv : JSON) (kvs : List (String × JSON))
    (h : HoldsExactly kvs (productMembers n d s m qv)) :
    decodeProductRequest (some (JSON.obj kvs)) =
      (decodeIntPtr qv).map (fun q =>
        { Name := n, Description := d, Sku := s, Manufacturer := m, Quantity := q }) := by
  obtain ⟨hsub, hsup⟩ := h
  have hmem : ∀ kv ∈ productMembers n d s m qv, kv ∈ kvs := hsup
  simp only [productMembers, List.mem_cons, List.mem_singleton, List.not_mem_nil, or_false,
    forall_eq_or_imp, forall_eq] at hmem
  obtain ⟨m1, m2, m3, m4, m5⟩ := hmem
  cases hq : decodeIntPtr qv with
  | none => simpa [decodeProductRequest] using decode_members_none n d s m qv hq kvs {} hsub m5
  | some q =>
    obtain ⟨r, hr, h1, h2, h3, h4, h5⟩ := decode_members_some n d s m qv q hq kvs {} hsub
    simp only [decodeProductRequest, hr, Option.map_some']
    simp only [m1, m2, m3, m4, m5, if_true] at h1 h2 h3 h4 h5
    cases r
    simp_all

theorem mem_set {m : GoMap} {k : String} {v : Value} {e : String × Value}
    (h : e ∈ m.set k v) : e ∈ m ∨ e = (k, v) := by
  unfold GoMap.set at h
  rcases List.mem_append.mp h with h1 | h1
  · exact Or.inl (List.mem_of_mem_filter h1)
  · exact Or.inr (by simpa using h1)

theorem key_mem_set (m : GoMap) (k : String) (v : Value) (k1 : String)
    (h : k1 = k ∨ k1 ∈ m.map Prod.fst) : k1 ∈ (m.set k v).map Prod.fst := by
  unfold GoMap.set
  by_cases hk : k1 = k
  · simp [hk]
  · rcases h with h | h
    · exact absurd h hk
    · obtain ⟨e, he, hek⟩ := List.mem_map.mp h
      refine List.mem_map.mpr ⟨e, ?_, hek⟩
      refine List.mem_append.mpr (Or.inl (List.mem_filter.mpr ⟨he, ?_⟩))
      simp [hek, hk]

theorem foldl_set_entries (T : List (String × Value)) (kvs : List (String × JSON)) :
    ∀ acc : GoMap, (∀ e ∈ acc, e ∈ T) → (∀ kv ∈ kvs, (kv.1, kv.2.toValue) ∈ T) →
      ∀ e ∈ kvs.foldl (fun m kv => m.set kv.1 kv.2.toValue) acc, e ∈ T := by
  induction kvs with
  | nil => intro acc hacc _ e he; exact hacc e he
  | cons kv rest ih =>
    intro acc hacc hall e he
    refine ih (acc.set kv.1 kv.2.toValue) ?_ (fun x hx => hall x (List.mem_cons_of_mem _ hx)) e he
    intro e1 he1
    rcases mem_set he1 with h | h
    · exact hacc e1 h
    · rw [h]; exact hall kv (List.mem_cons_self _ _)

theorem foldl_set_keys (kvs : List (String × JSON)) :
    ∀ (acc : GoMap) (k : String), (k ∈ acc.map Prod.fst ∨ k ∈ kvs.map Prod.fst) →
      k ∈ (kvs.foldl (fun m kv => m.set kv.1 kv.2.toValue) acc).map Prod.fst := by
  induction kvs with
  | nil => intro acc k h; simpa using h
  | cons kv rest ih =>
    intro acc k h
    refine ih (acc.set kv.1 kv.2.toValue) k ?_
    rcases h with h | h
    · exact Or.inl (key_mem_set _ _ _ _ (Or.inr h))
    · simp only [List.map_cons, List.mem_cons] at h
      rcases h with h | h
      · exact Or.inl (key_mem_set _ _ _ _ (Or.inl h))
      · exact Or.inr h

theorem get_of_unique (m : GoMap) (k : String) (v : Value)
    (hk : k ∈ m.map Prod.fst) (hv : ∀ e ∈ m, e.1 = k → e.2 = v) : m.get k = some v := by
  unfold GoMap.get
  cases hf : m.find? (fun kv => decide (kv.1 = k)) with
  | none =>
    exfalso
    obtain ⟨e, he, hek⟩ := List.mem_map.mp hk
    have := List.find?_eq_none.mp hf e he
    simp [hek] at this
  | some e =>
    have h1 : e.1 = k := by simpa using List.find?_some hf
    have h2 : e ∈ m := List.mem_of_find?_eq_some hf
    simp [hv e h2 h1]

theorem toValue_str (x : String) : (JSON.str x).toValue = Value.string x := rfl

theorem toValue_int (i : Int) : (JSON.int i).toValue = Value.float64 (i : ℚ) := rfl

theorem toValue_frac (q : ℚ) : (JSON.frac q).toValue = Value.float64 q := rfl

theorem truncate_intCast (v : Int) : truncate (v : ℚ) = v := by
  unfold truncate
  split_ifs <;> simp

theorem quantity_test_iff (q : ℚ) :
    ¬ (q < 0 ∨ q > 100 ∨ q ≠ ((truncate q : Int) : ℚ)) ↔
      ∃ v : Int, q = (v : ℚ) ∧ 0 ≤ v ∧ v ≤ 100 := by
  constructor
  · intro h
    push_neg at h
    obtain ⟨h0, h100, hint⟩ := h
    refine ⟨truncate q, hint, ?_, ?_⟩
    · have : (0 : ℚ) ≤ ((truncate q : Int) : ℚ) := hint ▸ h0
      exact_mod_cast this
    · have : ((truncate q : Int) : ℚ) ≤ 100 := hint ▸ h100
      exact_mod_cast this
  · rintro ⟨v, rfl, h0, h100⟩
    push_neg
    refine ⟨by exact_mod_cast h0, by exact_mod_cast h100, ?_⟩
    rw [truncate_intCast]

theorem applyFields_some (n d s m : String) (qv : JSON) (t : Nat) (v : Int)
    (hqv : qv.toValue = Value.float64 (v : ℚ)) (h0 : 0 ≤ v) (h100 : v ≤ 100)
    (fields : GoMap) :
    ∀ p : Product,
      (∀ e ∈ fields, e ∈ productEntries n d s m qv ∨ e = ("date_last_updated", Value.time t)) →
      ∃ p1, applyFields fields p = some p1 := by
  induction fields with
  | nil => intro p _; exact ⟨p, rfl⟩
  | cons e rest ih =>
    intro p hall
    have he := hall e (List.mem_cons_self _ _)
    have hrest := fun x hx => hall x (List.mem_cons_of_mem _ hx)
    have hstep : ∃ p1, setColumn p e.1 e.2 = some p1 := by
      simp only [productEntries, productMembers, List.map_cons, List.map_nil, List.mem_cons,
        List.mem_singleton, List.not_mem_nil, or_false, toValue_str, hqv] at he
      have hq0 : (0 : ℚ) ≤ (v : ℚ) := by exact_mod_cast h0
      have hq100 : (v : ℚ) ≤ 100 := by exact_mod_cast h100
      rcases he with (h | h | h | h | h) | h <;> simp [h, setColumn, hq0, hq100]
    obtain ⟨p1, hp1⟩ := hstep
    obtain ⟨p2, hp2⟩ := ih p1 hrest
    exact ⟨p2, by simp [applyFields, List.foldlM, hp1] at hp2 ⊢; exact hp2⟩

theorem createProduct_exact (env : Env) (u : User) (req : Request) (st : Store)
    (kvs : List (String × JSON)) (n d s m : String) (qv : JSON)
    (hv : isValidRequest req true = true) (hb : req.body = some (JSON.obj kvs))
    (hx : HoldsExactly kvs (productMembers n d s m qv))
    (hn : n ≠ "") (hd : d ≠ "") (hs : s ≠ "") (hm : m ≠ "") :
    CreateProduct env (some u) req st =
      match decodeIntPtr qv with
      | some (some v) =>
        if v < 0 ∨ v > 100 then (status 400, st)
        else
          match dbInsertProduct env st
            { ID := 0, Name := n, Description := d, Sku := s, Manufacturer := m, Quantity := v,
              OwnerUserID := u.ID, DateAdded := env.now, DateLastUpdated := env.now } with
          | none => (status 400, st)
          | some (row, st1) => ({ status := 201, body := Body.product row }, st1)
      | _ => (status 400, st) := by
  unfold CreateProduct
  simp only [hv, hb, decode_exact n d s m qv kvs hx]
  cases hq : decodeIntPtr qv with
  | none => simp
  | some q =>
    cases q with
    | none => simp
    | some v => simp [hn, hd, hs, hm]

theorem updatePutProduct_exact (env : Env) (u : User) (req : Request) (st : Store)
    (kvs : List (String × JSON)) (n d s m : String) (qv : JSON) (id : Int) (p : Product)
    (hv : isValidRequest req true = true) (hb : req.body = some (JSON.obj kvs))
    (hx : HoldsExactly kvs (productMembers n d s m qv))
    (hn : n ≠ "") (hd : d ≠ "") (hs : s ≠ "") (hm : m ≠ "")
    (hid : Atoi req.productId = some id) (hp : findProduct st id = some p)
    (hown : p.OwnerUserID = u.ID) :
    UpdatePutProduct env (some u) req st =
      match decodeIntPtr qv with
      | some (some v) =>
        if v < 0 ∨ v > 100 then (status 400, st)
        else
          match dbUpdateProduct env st p
            [("name", Value.string n), ("description", Value.string d),
             ("sku", Value.string s), ("manufacturer", Value.string m),
             ("quantity", Value.int v), ("date_last_updated", Value.time env.now)] with
          | none => (status 400, st)
          | some st1 => (status 204, st1)
      | _ => (status 400, st) := by
  unfold UpdatePutProduct
  simp only [hv, hb, hid, hp, hown, decode_exact n d s m qv kvs hx]
  cases hq : decodeIntPtr qv with
  | none => simp
  | some q =>
    cases q with
    | none => simp
    | some v => simp [hn, hd, hs, hm]

theorem decodeIntPtr_eq_some (qv : JSON) (v : Int) :
    decodeIntPtr qv = some (some v) ↔ qv = JSON.int v ∧ -(2 ^ 63) ≤ v ∧ v < 2 ^ 63 := by
  cases qv <;> simp [decodeIntPtr]
  rename_i i
  constructor
  · rintro ⟨h, rfl⟩; exact ⟨rfl, h⟩
  · rintro ⟨rfl, h⟩; exact ⟨h, rfl⟩

theorem decodeIntPtr_cases (qv : JSON) :
    (∃ v : Int, qv = JSON.int v ∧ 0 ≤ v ∧ v ≤ 100 ∧ decodeIntPtr qv = some (some v)) ∨
    ((¬ ∃ v : Int, qv = JSON.int v ∧ 0 ≤ v ∧ v ≤ 100) ∧
      ∀ v : Int, decodeIntPtr qv = some (some v) → v < 0 ∨ v > 100) := by
  by_cases h : ∃ v : Int, qv = JSON.int v ∧ 0 ≤ v ∧ v ≤ 100
  · obtain ⟨v, hv, h0, h100⟩ := h
    refine Or.inl ⟨v, hv, h0, h100, ?_⟩
    rw [decodeIntPtr_eq_some]
    exact ⟨hv, by omega, by omega⟩
  · refine Or.inr ⟨h, ?_⟩
    intro v hv
    rw [decodeIntPtr_eq_some] at hv
    by_contra hc
    exact h ⟨v, hv.1, by omega, by omega⟩

theorem createProduct_cases (env : Env) (u : User) (req : Request) (st : Store)
    (kvs : List (String × JSON)) (n d s m : String) (qv : JSON)
    (hv : isValidRequest req true = true) (hb : req.body = some (JSON.obj kvs))
    (hx : HoldsExactly kvs (productMembers n d s m qv))
    (hn : n ≠ "") (hd : d ≠ "") (hs : s ≠ "") (hm : m ≠ "")
    (hins : env.insertFails = false) :
    (∃ v : Int, qv = JSON.int v ∧ 0 ≤ v ∧ v ≤ 100 ∧
      (CreateProduct env (some u) req st).1.status = 201 ∧
      (CreateProduct env (some u) req st).2.products = st.products ++
        [{ ID := st.productSeq + 1, Name := n, Description := d, Sku := s, Manufacturer := m,
           Quantity := v, OwnerUserID := u.ID, DateAdded := env.now,
           DateLastUpdated := env.now }]) ∨
    ((¬ ∃ v : Int, qv = JSON.int v ∧ 0 ≤ v ∧ v ≤ 100) ∧
      CreateProduct env (some u) req st = (status 400, st)) := by
  rw [createProduct_exact env u req st kvs n d s m qv hv hb hx hn hd hs hm]
  rcases decodeIntPtr_cases qv with ⟨v, hqv, h0, h100, hdec⟩ | ⟨hno, hdec⟩
  · refine Or.inl ⟨v, hqv, h0, h100, ?_⟩
    have hr : ¬ (v < 0 ∨ v > 100) := by omega
    simp [hdec, hr, dbInsertProduct, hins]
  · refine Or.inr ⟨hno, ?_⟩
    cases hq : decodeIntPtr qv with
    | none => rfl
    | some q =>
      cases q with
      | none => rfl
      | some v => simp [hdec v hq]

theorem updatePutProduct_cases (env : Env) (u : User) (req : Request) (st : Store)
    (kvs : List (String × JSON)) (n d s m : String) (qv : JSON) (id : Int) (p : Product)
    (hv : isValidRequest req true = true) (hb : req.body = some (JSON.obj kvs))
    (hx : HoldsExactly kvs (productMembers n d s m qv))
    (hn : n ≠ "") (hd : d ≠ "") (hs : s ≠ "") (hm : m ≠ "")
    (hid : Atoi req.productId = some id) (hp : findProduct st id = some p)
    (hown : p.OwnerUserID = u.ID) (hupd : env.updateFails = false) :
    (∃ v : Int, qv = JSON.int v ∧ 0 ≤ v ∧ v ≤ 100 ∧
      (UpdatePutProduct env (some u) req st).1.status = 204) ∨
    ((¬ ∃ v : Int, qv = JSON.int v ∧ 0 ≤ v ∧ v ≤ 100) ∧
      UpdatePutProduct env (some u) req st = (status 400, st)) := by
  rw [updatePutProduct_exact env u req st kvs n d s m qv id p hv hb hx hn hd hs hm hid hp hown]
  rcases decodeIntPtr_cases qv with ⟨v, hqv, h0, h100, hdec⟩ | ⟨hno, hdec⟩
  · refine Or.inl ⟨v, hqv, h0, h100, ?_⟩
    have hr : ¬ (v < 0 ∨ v > 100) := by omega
    simp [hdec, hr, dbUpdateProduct, hupd, applyFields, List.foldlM, setColumn, h0, h100, status]
  · refine Or.inr ⟨hno, ?_⟩
    cases hq : decodeIntPtr qv with
    | none => rfl
    | some q =>
      cases q with
      | none => rfl
      | some v => simp [hdec v hq]

theorem patch_decoded (kvs : List (String × JSON)) (n d s m : String) (qv : JSON)
    (hsub : ∀ kv ∈ kvs, kv ∈ productMembers n d s m qv) (hq : ("quantity", qv) ∈ kvs) :
    ∃ M : GoMap, decodeMap (some (JSON.obj kvs)) = some (some M) ∧
      (mapKeys (some M)).all (fun key => decide (key ∈ productFields)) = true ∧
      badQuantity (some M) =
        (match qv.toValue with
         | Value.float64 q => decide (q < 0 ∨ q > 100 ∨ q ≠ ((truncate q : Int) : ℚ))
         | _ => true) ∧
      ∀ e ∈ M, e ∈ productEntries n d s m qv := by
  refine ⟨mapOfMembers kvs, rfl, ?_, ?_, ?_⟩
  all_goals
    have hent : ∀ e ∈ mapOfMembers kvs,
        e ∈ productEntries n d s m qv := by
      unfold mapOfMembers
      refine foldl_set_entries _ kvs [] (by simp) ?_
      intro kv hkv
      exact List.mem_map.mpr ⟨kv, hsub kv hkv, rfl⟩
  · rw [List.all_eq_true]
    intro k hk
    simp only [mapKeys, Option.getD_some] at hk
    obtain ⟨e, he, rfl⟩ := List.mem_map.mp hk
    have := hent e he
    simp only [productEntries, productMembers, List.map_cons, List.map_nil, List.mem_cons,
      List.mem_singleton, List.not_mem_nil, or_false] at this
    rcases this with h | h | h | h | h <;> simp [h, productFields]
  · have hget : GoMap.get (mapOfMembers kvs)
        "quantity" = some qv.toValue := by
      apply get_of_unique
      · unfold mapOfMembers
        exact foldl_set_keys kvs [] "quantity"
          (Or.inr (List.mem_map.mpr ⟨("quantity", qv), hq, rfl⟩))
      · intro e he hk
        have := hent e he
        simp only [productEntries, productMembers, List.map_cons, List.map_nil, List.mem_cons,
          List.mem_singleton, List.not_mem_nil, or_false] at this
        rcases this with h | h | h | h | h <;> simp_all
    simp only [badQuantity, Option.getD_some, hget]
    cases qv.toValue <;> rfl
  · exact hent

theorem toValue_eq_float64 (qv : JSON) (q : ℚ) :
    qv.toValue = Value.float64 q ↔ qv.number? = some q := by
  cases qv <;> simp [JSON.toValue, JSON.number?]

theorem updatePatchProduct_cases (env : Env) (u : User) (req : Request) (st : Store)
    (kvs : List (String × JSON)) (n d s m : String) (qv : JSON) (id : Int) (p : Product)
    (hv : isValidRequest req true = true) (hb : req.body = some (JSON.obj kvs))
    (hsub : ∀ kv ∈ kvs, kv ∈ productMembers n d s m qv) (hq : ("quantity", qv) ∈ kvs)
    (hid : Atoi req.productId = some id) (hp : findProduct st id = some p)
    (hown : p.OwnerUserID = u.ID) (hupd : env.updateFails = false) :
    (∃ v : Int, qv.number? = some (v : ℚ) ∧ 0 ≤ v ∧ v ≤ 100 ∧
      (UpdatePatchProduct env (some u) req st).1.status = 204) ∨
    ((¬ ∃ v : Int, qv.number? = some (v : ℚ) ∧ 0 ≤ v ∧ v ≤ 100) ∧
      UpdatePatchProduct env (some u) req st = (status 400, st)) := by
  obtain ⟨M, hdec, hkeys, hbad, hent⟩ := patch_decoded kvs n d s m qv hsub hq
  by_cases hex : ∃ v : Int, qv.number? = some (v : ℚ) ∧ 0 ≤ v ∧ v ≤ 100
  · obtain ⟨v, hnum, h0, h100⟩ := hex
    refine Or.inl ⟨v, hnum, h0, h100, ?_⟩
    have htv : qv.toValue = Value.float64 (v : ℚ) := (toValue_eq_float64 qv _).mpr hnum
    have hgood : ¬ ((v : ℚ) < 0 ∨ (v : ℚ) > 100 ∨ (v : ℚ) ≠ ((truncate (v : ℚ) : Int) : ℚ)) :=
      (quantity_test_iff _).mpr ⟨v, rfl, h0, h100⟩
    have hbad2 : badQuantity (some M) = false := by
      rw [hbad, htv]
      simpa using hgood
    obtain ⟨p1, hp1⟩ := applyFields_some n d s m qv env.now v htv h0 h100
      (M.set "date_last_updated" (Value.time env.now)) p
      (fun e he => (mem_set he).imp (hent e) (fun h => h))
    simp [UpdatePatchProduct, hid, hv, hp, hown, hb, hdec, hkeys, hbad2, dbUpdateProduct, hupd,
      hp1, status]
  · refine Or.inr ⟨hex, ?_⟩
    have hbad2 : badQuantity (some M) = true := by
      rw [hbad]
      cases htv : qv.toValue with
      | float64 q =>
        have hnum := (toValue_eq_float64 qv q).mp htv
        have : q < 0 ∨ q > 100 ∨ q ≠ ((truncate q : Int) : ℚ) := by
          by_contra hc
          obtain ⟨v, hqv, h0, h100⟩ := (quantity_test_iff q).mp hc
          exact hex ⟨v, by rw [hnum, hqv], h0, h100⟩
        simpa using this
      | _ => rfl
    simp [UpdatePatchProduct, hid, hv, hp, hown, hb, hdec, hkeys, hbad2]

theorem rejectedQuantities_not_int (qv : JSON) (h : qv ∈ rejectedQuantities) :
    ¬ ∃ v : Int, qv = JSON.int v ∧ 0 ≤ v ∧ v ≤ 100 := by
  simp only [rejectedQuantities, List.mem_cons, List.mem_singleton, List.not_mem_nil,
    or_false] at h
  rintro ⟨v, hv, h0, h100⟩
  rcases h with h | h | h | h <;> rw [h] at hv
  · injection hv with hv; omega
  · injection hv with hv; omega
  · injection hv with hv; omega
  · cases hv

theorem rejectedQuantities_not_number (qv : JSON) (h : qv ∈ rejectedQuantities) :
    ¬ ∃ v : Int, qv.number? = some (v : ℚ) ∧ 0 ≤ v ∧ v ≤ 100 := by
  simp only [rejectedQuantities, List.mem_cons, List.mem_singleton, List.not_mem_nil,
    or_false] at h
  rintro ⟨v, hv, h0, h100⟩
  rcases h with h | h | h | h <;> rw [h] at hv <;> simp only [JSON.number?, Option.some.injEq] at hv
  · have : v = -1 := by exact_mod_cast hv.symm
    omega
  · have : v = 101 := by exact_mod_cast hv.symm
    omega
  · have : v = 150 := by exact_mod_cast hv.symm
    omega
  · have h2 : (2 * v : ℚ) = 5 := by rw [← hv]; norm_num
    have h3 : 2 * v = 5 := by exact_mod_cast h2
    omega

/-- C6: for product create, replace and patch, on a request that is otherwise
valid (declared body, no query string, the known members with text values, and
for replace and patch an existing product owned by the principal) and a store
whose write succeeds: create and replace succeed exactly when the quantity is
written as an integer v with 0 ≤ v ≤ 100, patch succeeds exactly when the
quantity is a number whose value is an integer v with 0 ≤ v ≤ 100; every other
quantity, in particular -1, 101, 150 and 2.5, is answered 400 with the store
unchanged. -/
theorem quantity_integral_in_range (env : Env) (u : User) (req : Request) (st : Store)
    (kvs : List (String × JSON)) (n d s m : String) (qv : JSON)
    (hb : req.body = some (JSON.obj kvs)) (hv : isValidRequest req true = true)
    (hsub : ∀ kv ∈ kvs, kv ∈ productMembers n d s m qv) (hq : ("quantity", qv) ∈ kvs)
    (hins : env.insertFails = false) (hupd : env.updateFails = false) :
    ((∀ kv ∈ productMembers n d s m qv, kv ∈ kvs) → n ≠ "" → d ≠ "" → s ≠ "" → m ≠ "" →
      ((CreateProduct env (some u) req st).1.status = 201 ↔
        ∃ v : Int, qv = JSON.int v ∧ 0 ≤ v ∧ v ≤ 100) ∧
      ((CreateProduct env (some u) req st).1.status ≠ 201 →
        Rejected (CreateProduct env (some u) req st) st) ∧
      (qv ∈ rejectedQuantities → Rejected (CreateProduct env (some u) req st) st)) ∧
    (∀ (id : Int) (p : Product), Atoi req.productId = some id → findProduct st id = some p →
      p.OwnerUserID = u.ID →
      ((∀ kv ∈ productMembers n d s m qv, kv ∈ kvs) → n ≠ "" → d ≠ "" → s ≠ "" → m ≠ "" →
        ((UpdatePutProduct env (some u) req st).1.status = 204 ↔
          ∃ v : Int, qv = JSON.int v ∧ 0 ≤ v ∧ v ≤ 100) ∧
        ((UpdatePutProduct env (some u) req st).1.status ≠ 204 →
          Rejected (UpdatePutProduct env (some u) req st) st) ∧
        (qv ∈ rejectedQuantities → Rejected (UpdatePutProduct env (some u) req st) st)) ∧
      (((UpdatePatchProduct env (some u) req st).1.status = 204 ↔
          ∃ v : Int, qv.number? = some (v : ℚ) ∧ 0 ≤ v ∧ v ≤ 100) ∧
        ((UpdatePatchProduct env (some u) req st).1.status ≠ 204 →
          Rejected (UpdatePatchProduct env (some u) req st) st) ∧
        (qv ∈ rejectedQuantities → Rejected (UpdatePatchProduct env (some u) req st) st))) := by
  refine ⟨?_, ?_⟩
  · intro hsup hn hd hs hm
    rcases createProduct_cases env u req st kvs n d s m qv hv hb ⟨hsub, hsup⟩ hn hd hs hm hins
      with ⟨v, hqv, h0, h100, hst, _⟩ | ⟨hno, hres⟩
    · refine ⟨⟨fun _ => ⟨v, hqv, h0, h100⟩, fun _ => hst⟩, fun h => absurd hst h, ?_⟩
      intro hr
      exact absurd ⟨v, hqv, h0, h100⟩ (rejectedQuantities_not_int qv hr)
    · rw [hres]
      refine ⟨⟨fun h => by simp [status] at h, fun h => absurd h hno⟩, fun _ => ⟨rfl, rfl⟩,
        fun _ => ⟨rfl, rfl⟩⟩
  · intro id p hid hp hown
    refine ⟨?_, ?_⟩
    · intro hsup hn hd hs hm
      rcases updatePutProduct_cases env u req st kvs n d s m qv id p hv hb ⟨hsub, hsup⟩
        hn hd hs hm hid hp hown hupd with ⟨v, hqv, h0, h100, hst⟩ | ⟨hno, hres⟩
      · refine ⟨⟨fun _ => ⟨v, hqv, h0, h100⟩, fun _ => hst⟩, fun h => absurd hst h, ?_⟩
        intro hr
        exact absurd ⟨v, hqv, h0, h100⟩ (rejectedQuantities_not_int qv hr)
      · rw [hres]
        refine ⟨⟨fun h => by simp [status] at h, fun h => absurd h hno⟩, fun _ => ⟨rfl, rfl⟩,
          fun _ => ⟨rfl, rfl⟩⟩
    · rcases updatePatchProduct_cases env u req st kvs n d s m qv id p hv hb hsub hq
        hid hp hown hupd with ⟨v, hqv, h0, h100, hst⟩ | ⟨hno, hres⟩
      · refine ⟨⟨fun _ => ⟨v, hqv, h0, h100⟩, fun _ => hst⟩, fun h => absurd hst h, ?_⟩
        intro hr
        exact absurd ⟨v, hqv, h0, h100⟩ (rejectedQuantities_not_number qv hr)
      · rw [hres]
        refine ⟨⟨fun h => by simp [status] at h, fun h => absurd h hno⟩, fun _ => ⟨rfl, rfl⟩,
          fun _ => ⟨rfl, rfl⟩⟩

/-- Instance of C6: alice creates a product with quantity 50 and gets 201; her
patch of the widget with quantity 2.5 is answered 400 with the store unchanged. -/
theorem quantity_integral_in_range_witness :
    (CreateProduct {} (some alice) (createRequest (JSON.int 50)) sampleStore).1.status = 201 ∧
    Rejected (UpdatePatchProduct {} (some alice) (patchRequest (JSON.frac (5 / 2))) sampleStore)
      sampleStore :=
  ⟨((quantity_integral_in_range {} alice (createRequest (JSON.int 50)) sampleStore
        (productMembers "X" "Y" "S" "M" (JSON.int 50)) "X" "Y" "S" "M" (JSON.int 50)
        rfl rfl (fun _ h => h) (by simp [productMembers]) rfl rfl).1
      (fun _ h => h) (by decide) (by decide) (by decide) (by decide)).1.mpr
      ⟨50, rfl, by decide, by decide⟩,
   ((quantity_integral_in_range {} alice (patchRequest (JSON.frac (5 / 2))) sampleStore
        (productMembers "X" "Y" "S" "M" (JSON.frac (5 / 2))) "X" "Y" "S" "M" (JSON.frac (5 / 2))
        rfl rfl (fun _ h => h) (by simp [productMembers]) rfl rfl).2
      1 widget (by decide) (by decide) rfl).2.2.2 (by simp [rejectedQuantities])⟩

/-- C7: a CreateProduct request by an authenticated principal with no query
string and a declared body that holds exactly the five known members, with
non-empty name, description, sku and manufacturer and an integer quantity in
[0,100], on a store whose insert succeeds, is answered 201 with the created
row; exactly one product row is appended, carrying the four texts and the
quantity of the request and the principal id as owner; no other table changes. -/
theorem createProduct_inserts_owned_row (env : Env) (u : User) (req : Request) (st : Store)
    (kvs : List (String × JSON)) (n d s m : String) (q : Int)
    (hquery : req.query = [])
    (hbody : req.contentLength ≠ 0 ∨ req.transferEncoding ≠ "")
    (hb : req.body = some (JSON.obj kvs))
    (hx : HoldsExactly kvs (productMembers n d s m (JSON.int q)))
    (hn : n ≠ "") (hd : d ≠ "") (hs : s ≠ "") (hm : m ≠ "")
    (h0 : 0 ≤ q) (h100 : q ≤ 100) (hins : env.insertFails = false) :
    ∃ row : Product,
      CreateProduct env (some u) req st =
        ({ status := 201, body := Body.product row },
         { st with products := st.products ++ [row], productSeq := st.productSeq + 1 }) ∧
      row.Name = n ∧ row.Description = d ∧ row.Sku = s ∧ row.Manufacturer = m ∧
      row.Quantity = q ∧ row.OwnerUserID = u.ID := by
  have hv : isValidRequest req true = true := by
    unfold isValidRequest
    simp only [hquery, List.length_nil, gt_iff_lt, lt_self_iff_false, if_false, if_true]
    rcases hbody with h | h <;> simp [h]
  have hdec : decodeIntPtr (JSON.int q) = some (some q) :=
    (decodeIntPtr_eq_some _ _).mpr ⟨rfl, by omega, by omega⟩
  have hr : ¬ (q < 0 ∨ q > 100) := by omega
  rw [createProduct_exact env u req st kvs n d s m (JSON.int q) hv hb hx hn hd hs hm]
  simp [hdec, hr, dbInsertProduct, hins]

/-- Instance of C7: alice posts the payload of the scenario with quantity 50. -/
theorem createProduct_inserts_owned_row_witness :
    ∃ row : Product,
      CreateProduct {} (some alice) (createRequest (JSON.int 50)) sampleStore =
        ({ status := 201, body := Body.product row },
         { sampleStore with products := sampleStore.products ++ [row],
                            productSeq := sampleStore.productSeq + 1 }) ∧
      row.Name = "X" ∧ row.Description = "Y" ∧ row.Sku = "S" ∧ row.Manufacturer = "M" ∧
      row.Quantity = 50 ∧ row.OwnerUserID = alice.ID :=
  createProduct_inserts_owned_row {} alice (createRequest (JSON.int 50)) sampleStore
    (productMembers "X" "Y" "S" "M" (JSON.int 50)) "X" "Y" "S" "M" 50 rfl
    (Or.inl (by decide)) rfl ⟨fun _ h => h, fun _ h => h⟩ (by decide) (by decide) (by decide)
    (by decide) (by decide) (by decide) rfl

theorem decode_unknown_key (kvs : List (String × JSON)) (k : String)
    (hk : k ∈ kvs.map Prod.fst) (hno : lookupField productFields k = none) :
    ∀ acc : ProductRequest, kvs.foldlM (fun r kv => r.setField kv.1 kv.2) acc = none := by
  induction kvs with
  | nil => simp at hk
  | cons kv rest ih =>
    intro acc
    simp only [List.map_cons, List.mem_cons] at hk
    simp only [List.foldlM]
    cases hstep : acc.setField kv.1 kv.2 with
    | none => rfl
    | some r =>
      rcases hk with h | h
      · rw [h] at hno
        simp [ProductRequest.setField, hno] at hstep
      · exact ih h r

/-- C8, evaluated at a failing input: the key Name is not one of the five known
names, yet CreateProduct answers 201 to a payload that holds it and inserts a
row, and UpdatePutProduct answers 204 and writes its value, because
encoding/json matches object keys to struct fields case-insensitively also when
DisallowUnknownFields is set; UpdatePatchProduct answers 400 to the same
payload and leaves the store. -/
theorem case_variant_key_accepted :
    "Name" ∉ productFields ∧
    (CreateProduct {} (some alice)
      { method := "POST", contentLength := 80,
        body := some (JSON.obj [("Name", JSON.str "X"), ("description", JSON.str "Y"),
          ("sku", JSON.str "S"), ("manufacturer", JSON.str "M"), ("quantity", JSON.int 50)]) }
      sampleStore).1.status = 201 ∧
    (CreateProduct {} (some alice)
      { method := "POST", contentLength := 80,
        body := some (JSON.obj [("Name", JSON.str "X"), ("description", JSON.str "Y"),
          ("sku", JSON.str "S"), ("manufacturer", JSON.str "M"), ("quantity", JSON.int 50)]) }
      sampleStore).2.products.length = sampleStore.products.length + 1 ∧
    UpdatePutProduct {} (some alice)
      { method := "PUT", productId := "1", contentLength := 80,
        body := some (JSON.obj [("Name", JSON.str "Z"), ("description", JSON.str "Y"),
          ("sku", JSON.str "S"), ("manufacturer", JSON.str "M"), ("quantity", JSON.int 50)]) }
      sampleStore = (status 204, { sampleStore with products := [{ widget with Name := "Z" }] }) ∧
    UpdatePatchProduct {} (some alice)
      { method := "PATCH", productId := "1", contentLength := 80,
        body := some (JSON.obj [("Name", JSON.str "Z"), ("description", JSON.str "Y"),
          ("sku", JSON.str "S"), ("manufacturer", JSON.str "M"), ("quantity", JSON.int 50)]) }
      sampleStore = (status 400, sampleStore) := by
  decide

/-- What the three handlers do reject: for CreateProduct by an authenticated
principal, and for product replace and product patch on an existing product
owned by the principal, a body that is a JSON object with a key that matches
none of the five known names, not even case-insensitively, is answered 400 with
the store unchanged, whatever the other members are; for patch this holds for
every key that is not exactly one of the five names. -/
theorem unknown_key_rejected (env : Env) (u : User) (req : Request) (st : Store)
    (kvs : List (String × JSON)) (k : String)
    (hb : req.body = some (JSON.obj kvs)) (hk : k ∈ kvs.map Prod.fst) :
    (lookupField productFields k = none → Rejected (CreateProduct env (some u) req st) st) ∧
    (∀ (id : Int) (p : Product), Atoi req.productId = some id → findProduct st id = some p →
      p.OwnerUserID = u.ID →
      (lookupField productFields k = none →
        Rejected (UpdatePutProduct env (some u) req st) st) ∧
      (k ∉ productFields → Rejected (UpdatePatchProduct env (some u) req st) st)) := by
  constructor
  · intro hno
    have hdec : decodeProductRequest req.body = none := by
      rw [hb]
      exact decode_unknown_key kvs k hk hno {}
    unfold CreateProduct Rejected
    simp only [hdec]
    split_ifs <;> exact ⟨rfl, rfl⟩
  · intro id p hid hp hown
    constructor
    · intro hno
      have hdec : decodeProductRequest req.body = none := by
        rw [hb]
        exact decode_unknown_key kvs k hk hno {}
      unfold UpdatePutProduct Rejected
      simp only [hid, hp, hown, hdec]
      split_ifs <;> first | exact ⟨rfl, rfl⟩ | simp_all
    · intro hno
      have hkeys : (mapKeys (some (mapOfMembers kvs))).all
          (fun key => decide (key ∈ productFields)) = false := by
        rw [List.all_eq_false]
        refine ⟨k, ?_, by simpa using hno⟩
        simp only [mapKeys, Option.getD_some]
        unfold mapOfMembers
        exact foldl_set_keys kvs [] k (Or.inr hk)
      unfold UpdatePatchProduct Rejected
      simp only [hid, hp, hown, hb, decodeMap, hkeys]
      split_ifs <;> first | exact ⟨rfl, rfl⟩ | simp_all

/-- Instance of the rejection: a payload with the extra key color is rejected by
create, and by replace and patch of the widget by its owner. -/
theorem unknown_key_rejected_witness :
    Rejected (CreateProduct {} (some alice)
      { method := "POST", productId := "1", contentLength := 80,
        body := some (JSON.obj (("color", JSON.str "red") ::
          productMembers "X" "Y" "S" "M" (JSON.int 50))) } sampleStore) sampleStore ∧
    Rejected (UpdatePutProduct {} (some alice)
      { method := "POST", productId := "1", contentLength := 80,
        body := some (JSON.obj (("color", JSON.str "red") ::
          productMembers "X" "Y" "S" "M" (JSON.int 50))) } sampleStore) sampleStore ∧
    Rejected (UpdatePatchProduct {} (some alice)
      { method := "POST", productId := "1", contentLength := 80,
        body := some (JSON.obj (("color", JSON.str "red") ::
          productMembers "X" "Y" "S" "M" (JSON.int 50))) } sampleStore) sampleStore :=
  have h := unknown_key_rejected {} alice
    { method := "POST", productId := "1", contentLength := 80,
      body := some (JSON.obj (("color", JSON.str "red") ::
        productMembers "X" "Y" "S" "M" (JSON.int 50))) } sampleStore
    (("color", JSON.str "red") :: productMembers "X" "Y" "S" "M" (JSON.int 50)) "color" rfl
    (by simp)
  ⟨h.1 (by decide), (h.2 1 widget (by decide) (by decide) rfl).1 (by decide),
    (h.2 1 widget (by decide) (by decide) rfl).2 (by decide)⟩

/-- C9, evaluated at a failing input: a CreateUser body with the four known
members, all valid, and the extra key is_admin is answered 201 and an account
is created; ShouldBindJSON skips the key it does not know. -/
theorem createUser_accepts_unknown_key :
    "is_admin" ∉ createUserFields ∧
    (CreateUser sampleEnv
      { method := "POST", contentLength := 120,
        body := some (JSON.obj [("first_name", JSON.str "Jane"), ("last_name", JSON.str "Doe"),
          ("password", JSON.str "Password123"), ("username", JSON.str "jane@example.com"),
          ("is_admin", JSON.bool true)]) }
      sampleStore).1.status = 201 ∧
    (CreateUser sampleEnv
      { method := "POST", contentLength := 120,
        body := some (JSON.obj [("first_name", JSON.str "Jane"), ("last_name", JSON.str "Doe"),
          ("password", JSON.str "Password123"), ("username", JSON.str "jane@example.com"),
          ("is_admin", JSON.bool true)]) }
      sampleStore).2.users.map (fun x => x.Username) =
        ["alice@example.com", "bob@example.com", "jane@example.com"] := by
  decide

theorem findUser_append_new (users : List User) (row : User)
    (hnew : users.any (fun x => decide (x.Username = row.Username)) = false) :
    (users ++ [row]).find? (fun u => decide (u.Username = row.Username)) = some row := by
  induction users with
  | nil => simp
  | cons x rest ih =>
    simp only [List.any_cons, Bool.or_eq_false_iff] at hnew
    simp [List.find?_cons, hnew.1, ih hnew.2]

/-- The round trip when the hasher returns a digest: whenever CreateUser
answers 201 for a request bound to handle h and password p and the hasher
returned a digest for p, exactly one account is appended; its login handle is
the lower-case form of h and its credential is that digest (so it is not p
unless the digest is); and a later request whose Basic credentials are the
lower-case form of h and p passes AuthenticateUser, which attaches that
account, provided the digest verifies against p. -/
theorem createUser_then_authenticate (env env2 : Env) (req : Request) (st : Store)
    (cr : CreateUserRequest) (digest : String)
    (hbind : ShouldBindJSON req.body = some cr)
    (hhash : env.hash cr.Password = some digest)
    (hverify : env2.verify digest cr.Password = true)
    (hok : (CreateUser env req st).1.status = 201) :
    ∃ row : User,
      (CreateUser env req st).2.users = st.users ++ [row] ∧
      (CreateUser env req st).1.body = Body.user row.view ∧
      row.Username = toLower cr.Username ∧
      row.Password = digest ∧
      (digest ≠ cr.Password → row.Password ≠ cr.Password) ∧
      ∀ req2 : Request, req2.basicAuth = some (toLower cr.Username, cr.Password) →
        AuthenticateUser env2 req2 (CreateUser env req st).2 = Except.ok row := by
  unfold CreateUser at hok ⊢
  simp only [hbind, hashPassword, hhash] at hok ⊢
  split_ifs at hok ⊢ with h1 h2 h3
  · simp [status] at hok
  · simp [status] at hok
  · simp [status] at hok
  · cases hfind : findUserByUsername st cr.Username with
    | some x => simp [hfind, status] at hok
    | none =>
      simp only [hfind] at hok ⊢
      unfold dbInsertUser at hok ⊢
      split_ifs at hok ⊢ with h4 h5
      · simp [status] at hok
      · simp [status] at hok
      · refine ⟨_, rfl, rfl, rfl, rfl, fun h => h, ?_⟩
        intro req2 hreq2
        have hnew : st.users.any (fun x => decide (x.Username = toLower cr.Username)) = false := by
          simpa using h5
        simp only [AuthenticateUser, hreq2, findUserByUsername]
        rw [findUser_append_new st.users
          { ID := st.userSeq + 1, FirstName := cr.FirstName, LastName := cr.LastName,
            Password := digest, Username := toLower cr.Username, AccountCreated := env.now,
            AccountUpdated := env.now } hnew]
        simp [hverify]

/-- Instance of the round trip: the account is created with handle
Foo@Example.com and a request authenticates as foo@example.com with the same
password. -/
theorem createUser_then_authenticate_witness :
    ∃ row : User,
      (CreateUser sampleEnv
        { method := "POST", contentLength := 120,
          body := some (JSON.obj [("first_name", JSON.str "Foo"), ("last_name", JSON.str "Bar"),
            ("password", JSON.str "Password123"), ("username", JSON.str "Foo@Example.com")]) }
        sampleStore).2.users = sampleStore.users ++ [row] ∧
      row.Username = "foo@example.com" ∧
      row.Password = "bcrypt(Password123)" ∧
      AuthenticateUser sampleEnv
        { method := "GET", basicAuth := some ("foo@example.com", "Password123") }
        (CreateUser sampleEnv
          { method := "POST", contentLength := 120,
            body := some (JSON.obj [("first_name", JSON.str "Foo"), ("last_name", JSON.str "Bar"),
              ("password", JSON.str "Password123"), ("username", JSON.str "Foo@Example.com")]) }
          sampleStore).2 = Except.ok row := by
  obtain ⟨row, h1, _, h3, h4, _, h6⟩ := createUser_then_authenticate sampleEnv sampleEnv
    { method := "POST", contentLength := 120,
      body := some (JSON.obj [("first_name", JSON.str "Foo"), ("last_name", JSON.str "Bar"),
        ("password", JSON.str "Password123"), ("username", JSON.str "Foo@Example.com")]) }
    sampleStore
    { FirstName := "Foo", LastName := "Bar", Password := "Password123",
      Username := "Foo@Example.com" }
    "bcrypt(Password123)" (by decide) (by decide) (by decide) (by decide)
  have hl : toLower "Foo@Example.com" = "foo@example.com" := by decide
  exact ⟨row, h1, h3.trans hl, h4,
    h6 { method := "GET", basicAuth := some ("foo@example.com", "Password123") }
      (by rw [hl])⟩

/-- C12: on a route guarded by AuthenticateUser, a request without Basic
credentials, one whose handle no stored account has, and one whose password
does not verify against the hash of the account found, are each answered 401
with the store unchanged, whatever the guarded handler is (it is not called);
and when the middleware lets the request through, the handler runs with the
stored account whose handle is the supplied one, whose hash verified. -/
theorem authenticated_guard
    (handler : Env → Option User → Request → Store → Response × Store)
    (env : Env) (req : Request) (st : Store) :
    (req.basicAuth = none → authenticated handler env req st = (status 401, st)) ∧
    (∀ username password : String, req.basicAuth = some (username, password) →
      (∀ u ∈ st.users, u.Username ≠ username) →
      authenticated handler env req st = (status 401, st)) ∧
    (∀ (username password : String) (user : User),
      req.basicAuth = some (username, password) →
      findUserByUsername st username = some user →
      env.verify user.Password password = false →
      authenticated handler env req st = (status 401, st)) ∧
    (∀ user : User, AuthenticateUser env req st = Except.ok user →
      authenticated handler env req st = handler env (some user) req st ∧
      user ∈ st.users ∧
      ∃ username password : String, req.basicAuth = some (username, password) ∧
        user.Username = username ∧ findUserByUsername st username = some user ∧
        env.verify user.Password password = true) ∧
    (∀ r : Response, AuthenticateUser env req st = Except.error r →
      r = status 401 ∧ authenticated handler env req st = (status 401, st)) := by
  refine ⟨?_, ?_, ?_, ?_, ?_⟩
  · intro h
    simp [authenticated, AuthenticateUser, h]
  · intro username password h hno
    have hfind : findUserByUsername st username = none := by
      unfold findUserByUsername
      rw [List.find?_eq_none]
      intro u hu
      simpa using hno u hu
    simp [authenticated, AuthenticateUser, h, hfind]
  · intro username password user h hfind hver
    simp [authenticated, AuthenticateUser, h, hfind, hver]
  · intro user hok
    refine ⟨by simp [authenticated, hok], ?_⟩
    unfold AuthenticateUser at hok
    split at hok
    · simp at hok
    · rename_i username password hba
      split at hok
      · simp at hok
      · rename_i found hfind
        split at hok
        · rename_i hver
          simp only [Except.ok.injEq] at hok
          subst hok
          have hmem : found ∈ st.users := List.mem_of_find?_eq_some hfind
          have hname : found.Username = username := by
            simpa using List.find?_some hfind
          exact ⟨hmem, username, password, hba, hname, hfind, hver⟩
        · simp at hok
  · intro r herr
    have hr : r = status 401 := by
      unfold AuthenticateUser at herr
      repeat' split at herr
      all_goals simp_all
    subst hr
    exact ⟨rfl, by simp [authenticated, herr]⟩

/-- Instance of C12: a guarded DeleteProduct. Without credentials, with an
unknown handle and with a wrong password the answer is 401 and the widget
stays; with the credentials of alice the handler runs for alice. -/
theorem authenticated_guard_witness :
    authenticated DeleteProduct sampleEnv { method := "DELETE", productId := "1" } sampleStore
      = (status 401, sampleStore) ∧
    authenticated DeleteProduct sampleEnv
      { method := "DELETE", productId := "1", basicAuth := some ("eve@example.com", "x") }
      sampleStore = (status 401, sampleStore) ∧
    authenticated DeleteProduct sampleEnv
      { method := "DELETE", productId := "1", basicAuth := some ("alice@example.com", "x") }
      sampleStore = (status 401, sampleStore) :=
  ⟨(authenticated_guard DeleteProduct sampleEnv { method := "DELETE", productId := "1" }
      sampleStore).1 rfl,
   (authenticated_guard DeleteProduct sampleEnv
      { method := "DELETE", productId := "1", basicAuth := some ("eve@example.com", "x") }
      sampleStore).2.1 "eve@example.com" "x" rfl (by decide),
   (authenticated_guard DeleteProduct sampleEnv
      { method := "DELETE", productId := "1", basicAuth := some ("alice@example.com", "x") }
      sampleStore).2.2.1 "alice@example.com" "x" alice rfl (by decide) (by decide)⟩

/-- C13: an authenticated GetUser request (method GET) whose path id parses,
with no query string and no body, is answered 403 when the path id is not the
id of the principal, and otherwise 200 with the representation of the
principal; the representation carries id, names, handle and timestamps and
does not depend on the credential hash: two accounts that differ only in the
hash get the same response. -/
theorem getUser_self_only (env : Env) (authUser : User) (req : Request) (st : Store)
    (n : Nat) (hm : req.method = "GET") (hid : ParseUint32 req.userId = some n)
    (hq : req.query = []) (hlen : req.contentLength ≤ 0) :
    (n ≠ authUser.ID → GetUser env (some authUser) req st = (status 403, st)) ∧
    (n = authUser.ID →
      GetUser env (some authUser) req st =
        ({ status := 200, body := Body.user authUser.view }, st)) ∧
    (authUser.view.id = authUser.ID ∧ authUser.view.first_name = authUser.FirstName ∧
      authUser.view.last_name = authUser.LastName ∧
      authUser.view.username = authUser.Username ∧
      authUser.view.account_created = authUser.AccountCreated ∧
      authUser.view.account_updated = authUser.AccountUpdated) ∧
    (∀ credential : String,
      ({ authUser with Password := credential } : User).view = authUser.view ∧
      GetUser env (some { authUser with Password := credential }) req st =
        GetUser env (some authUser) req st) := by
  have hhead : ¬ req.method = "HEAD" := by rw [hm]; decide
  have hlen2 : ¬ req.contentLength > 0 := not_lt.mpr hlen
  refine ⟨?_, ?_, ⟨rfl, rfl, rfl, rfl, rfl, rfl⟩, ?_⟩
  · intro hne
    simp [GetUser, hhead, hid, hq, hlen2, hne]
  · intro heq
    simp [GetUser, hhead, hid, hq, hlen2, heq]
  · intro credential
    refine ⟨rfl, ?_⟩
    simp [GetUser, hhead, hid, hq, hlen2, User.view]

/-- Instance of C13: alice reads account 1 (her own) and account 2. -/
theorem getUser_self_only_witness :
    GetUser {} (some alice) { method := "GET", userId := "2" } sampleStore
      = (status 403, sampleStore) ∧
    GetUser {} (some alice) { method := "GET", userId := "1" } sampleStore
      = ({ status := 200, body := Body.user alice.view }, sampleStore) :=
  ⟨(getUser_self_only {} alice { method := "GET", userId := "2" } sampleStore 2 rfl
      (by decide) rfl (by decide)).1 (by decide),
   (getUser_self_only {} alice { method := "GET", userId := "1" } sampleStore 1 rfl
      (by decide) rfl (by decide)).2.1 (by decide)⟩

theorem setUserField_first (r : UpdateUserRequest) (x : String) :
    r.setField "first_name" (JSON.str x) = some { r with FirstName := x } := by
  simp [UpdateUserRequest.setField,
    show lookupField updateUserFields "first_name" = some "first_name" by decide, decodeString]

theorem setUserField_last (r : UpdateUserRequest) (x : String) :
    r.setField "last_name" (JSON.str x) = some { r with LastName := x } := by
  simp [UpdateUserRequest.setField,
    show lookupField updateUserFields "last_name" = some "last_name" by decide, decodeString]

theorem setUserField_password (r : UpdateUserRequest) (x : String) :
    r.setField "password" (JSON.str x) = some { r with Password := x } := by
  simp [UpdateUserRequest.setField,
    show lookupField updateUserFields "password" = some "password" by decide, decodeString]

open Classical in
theorem decode_userMembers (f l p : String) (kvs : List (String × JSON)) :
    ∀ acc : UpdateUserRequest, (∀ kv ∈ kvs, kv ∈ userMembers f l p) →
      ∃ r, kvs.foldlM (fun r kv => r.setField kv.1 kv.2) acc = some r ∧
        r.FirstName = (if ("first_name", JSON.str f) ∈ kvs then f else acc.FirstName) ∧
        r.LastName = (if ("last_name", JSON.str l) ∈ kvs then l else acc.LastName) ∧
        r.Password = (if ("password", JSON.str p) ∈ kvs then p else acc.Password) := by
  induction kvs with
  | nil => intro acc _; exact ⟨acc, rfl, by simp⟩
  | cons kv rest ih =>
    intro acc hall
    have hkv := hall kv (List.mem_cons_self _ _)
    have hrest : ∀ kv ∈ rest, kv ∈ userMembers f l p :=
      fun x hx => hall x (List.mem_cons_of_mem _ hx)
    simp only [userMembers, List.mem_cons, List.mem_singleton, List.not_mem_nil, or_false] at hkv
    rcases hkv with h | h | h
    · obtain ⟨r, hr, h1, h2, h3⟩ := ih { acc with FirstName := f } hrest
      refine ⟨r, ?_, ?_, ?_, ?_⟩
      · simp [h, List.foldlM, setUserField_first, hr]
      all_goals simp_all
    · obtain ⟨r, hr, h1, h2, h3⟩ := ih { acc with LastName := l } hrest
      refine ⟨r, ?_, ?_, ?_, ?_⟩
      · simp [h, List.foldlM, setUserField_last, hr]
      all_goals simp_all
    · obtain ⟨r, hr, h1, h2, h3⟩ := ih { acc with Password := p } hrest
      refine ⟨r, ?_, ?_, ?_, ?_⟩
      · simp [h, List.foldlM, setUserField_password, hr]
      all_goals simp_all

theorem decode_userMembers_exact (f l p : String) (kvs : List (String × JSON))
    (h : HoldsExactly kvs (userMembers f l p)) :
    decodeUpdateUserRequest (some (JSON.obj kvs)) =
      some { FirstName := f, LastName := l, Password := p } := by
  obtain ⟨hsub, hsup⟩ := h
  have hmem : ∀ kv ∈ userMembers f l p, kv ∈ kvs := hsup
  simp only [userMembers, List.mem_cons, List.mem_singleton, List.not_mem_nil, or_false,
    forall_eq_or_imp, forall_eq] at hmem
  obtain ⟨m1, m2, m3⟩ := hmem
  obtain ⟨r, hr, h1, h2, h3⟩ := decode_userMembers f l p kvs {} hsub
  simp only [decodeUpdateUserRequest, hr]
  simp only [m1, m2, m3, if_true] at h1 h2 h3
  cases r
  simp_all

theorem updateUser_exact (env : Env) (authUser : User) (req : Request) (st : Store)
    (kvs : List (String × JSON)) (f l p digest : String)
    (hid : ParseUint32 req.userId = some authUser.ID) (hq : req.query = [])
    (hlen : req.contentLength ≠ 0) (hb : req.body = some (JSON.obj kvs))
    (hx : HoldsExactly kvs (userMembers f l p))
    (hhash : env.hash p = some digest) (hupd : env.updateFails = false) :
    UpdateUser env (some authUser) req st =
      (status 204,
       { st with users := st.users.map (fun u =>
          if u.ID = authUser.ID then
            { u with FirstName := f, LastName := l, Password := digest }
          else u) }) := by
  simp [UpdateUser, hid, hq, hlen, hb, decode_userMembers_exact f l p kvs hx, hashPassword,
    hhash, dbUpdateUser, hupd, applyUserFields, List.foldlM, setUserColumn, zeroUser]

/-- C14, evaluated at a failing input: alice replaces her names and her
password by one of 73 bytes, for which the hasher returns an error; UpdateUser
answers 204 and the credential written is the empty string, not a digest of the
new password, so that alice can no longer authenticate with the new password
nor with a former one. -/
theorem updateUser_stores_empty_credential :
    bcryptEnv.hash longPassword = none ∧
    (UpdateUser bcryptEnv (some alice)
      { method := "PUT", userId := "1", contentLength := 130,
        body := some (JSON.obj (userMembers "Updated" "Name" longPassword)) }
      sampleStore).1.status = 204 ∧
    (UpdateUser bcryptEnv (some alice)
      { method := "PUT", userId := "1", contentLength := 130,
        body := some (JSON.obj (userMembers "Updated" "Name" longPassword)) }
      sampleStore).2.users =
      [{ alice with FirstName := "Updated", LastName := "Name", Password := "" }, bob] ∧
    (authenticated GetUser bcryptEnv
      { method := "GET", userId := "1", basicAuth := some ("alice@example.com", longPassword) }
      (UpdateUser bcryptEnv (some alice)
        { method := "PUT", userId := "1", contentLength := 130,
          body := some (JSON.obj (userMembers "Updated" "Name" longPassword)) }
        sampleStore).2).1 = status 401 := by
  decide

/-- The frame of UpdateUser when the hasher returns a digest: an UpdateUser
request by a principal on its own id, with no query
string and a declared body that holds exactly first_name, last_name and
password as strings, is answered 204 when the hasher returns a digest and the
store accepts the update; every account row whose id is not the principal id
is left as it was, and a row with the principal id gets the first and last
name of the payload and the digest of the new password, keeping its id, login
handle and creation time; no other table changes. -/
theorem updateUser_frame (env : Env) (authUser : User) (req : Request) (st : Store)
    (kvs : List (String × JSON)) (f l p digest : String)
    (hid : ParseUint32 req.userId = some authUser.ID) (hq : req.query = [])
    (hlen : req.contentLength ≠ 0) (hb : req.body = some (JSON.obj kvs))
    (hx : HoldsExactly kvs (userMembers f l p))
    (hhash : env.hash p = some digest) (hupd : env.updateFails = false) :
    (UpdateUser env (some authUser) req st).1.status = 204 ∧
    (UpdateUser env (some authUser) req st).2.products = st.products ∧
    (UpdateUser env (some authUser) req st).2.images = st.images ∧
    (UpdateUser env (some authUser) req st).2.blobs = st.blobs ∧
    ∃ g : User → User,
      (UpdateUser env (some authUser) req st).2.users = st.users.map g ∧
      (∀ u : User, u.ID ≠ authUser.ID → g u = u) ∧
      (∀ u : User, u.ID = authUser.ID →
        (g u).FirstName = f ∧ (g u).LastName = l ∧ (g u).Password = digest ∧
        (g u).ID = u.ID ∧ (g u).Username = u.Username ∧
        (g u).AccountCreated = u.AccountCreated) := by
  rw [updateUser_exact env authUser req st kvs f l p digest hid hq hlen hb hx hhash hupd]
  refine ⟨rfl, rfl, rfl, rfl, _, rfl, ?_, ?_⟩
  · intro u hu
    simp [hu]
  · intro u hu
    simp [hu]

/-- Instance of the frame: alice replaces her names and password. -/
theorem updateUser_frame_witness :
    (UpdateUser sampleEnv (some alice)
      { method := "PUT", userId := "1", contentLength := 70,
        body := some (JSON.obj (userMembers "Updated" "Name" "NewPassword123")) }
      sampleStore).1.status = 204 ∧
    (UpdateUser sampleEnv (some alice)
      { method := "PUT", userId := "1", contentLength := 70,
        body := some (JSON.obj (userMembers "Updated" "Name" "NewPassword123")) }
      sampleStore).2.users =
      [{ alice with FirstName := "Updated", LastName := "Name",
                    Password := "bcrypt(NewPassword123)" }, bob] := by
  have h := updateUser_frame sampleEnv alice
    { method := "PUT", userId := "1", contentLength := 70,
      body := some (JSON.obj (userMembers "Updated" "Name" "NewPassword123")) }
    sampleStore (userMembers "Updated" "Name" "NewPassword123") "Updated" "Name"
    "NewPassword123" "bcrypt(NewPassword123)" (by decide) rfl (by decide) rfl
    ⟨fun _ h => h, fun _ h => h⟩ (by decide) rfl
  exact ⟨h.1, by decide⟩

/-- C15, evaluated at a failing input: alice sends UpdateUser on her own id with
the body {}; the decoder returns no error for the missing members, the handler
answers 204 and overwrites her names with the empty string and her credential
with the digest of the empty password. -/
theorem updateUser_accepts_empty_object :
    (UpdateUser sampleEnv (some alice)
      { method := "PUT", userId := "1", contentLength := 2, body := some (JSON.obj []) }
      sampleStore).1.status = 204 ∧
    (UpdateUser sampleEnv (some alice)
      { method := "PUT", userId := "1", contentLength := 2, body := some (JSON.obj []) }
      sampleStore).2.users =
      [{ alice with FirstName := "", LastName := "", Password := "bcrypt()" }, bob] ∧
    (UpdateUser sampleEnv (some alice)
      { method := "PUT", userId := "1", contentLength := 2, body := some (JSON.obj []) }
      sampleStore).2 ≠ sampleStore := by
  decide

theorem deleteProduct_final (env : Env) (user : Option User) (req : Request) (st : Store) :
    (DeleteProduct env user req st).2 = (DeleteProductStates env user req st).getLastD st := by
  unfold DeleteProduct DeleteProductStates
  repeat' split
  all_goals rfl

/-- C16, evaluated at a failing input: alice deletes her widget while the
DELETE of the image rows fails; DeleteProduct does not inspect that result,
deletes the product row and answers 204, and the photo, whose product
reference is the widget, remains although no product has that id any more. -/
theorem deleteProduct_leaves_image_of_deleted_product :
    DeleteProduct { deleteImagesFails := true } (some alice)
      { method := "DELETE", productId := "1" } sampleStore
      = (status 204, { sampleStore with products := [] }) ∧
    DeleteProductStates { deleteImagesFails := true } (some alice)
      { method := "DELETE", productId := "1" } sampleStore
      = [sampleStore, { sampleStore with products := [] }] ∧
    photo ∈ ({ sampleStore with products := [] } : Store).images ∧
    photo.ProductID = widget.ID ∧
    findProduct { sampleStore with products := [] } 1 = none ∧
    ¬ NoDangling { sampleStore with products := [] } 1 := by
  refine ⟨by decide, by decide, by decide, by decide, by decide, ?_⟩
  unfold NoDangling
  decide

/-- The order of the two statements when both succeed: for a DeleteProduct
request by the owner of an existing product, with no query string and no body,
on a store whose deletes succeed: the handler
issues two statements; the first removes every image row that references the
product and leaves the product row, the second removes the product row; so in
each state the store goes through no image row references a missing product;
the response is 204 and the final store holds neither the product nor an image
row referencing it. -/
theorem deleteProduct_images_first (env : Env) (u : User) (req : Request) (st : Store)
    (id : Int) (p : Product)
    (hid : Atoi req.productId = some id) (hq : req.query = []) (hlen : req.contentLength ≤ 0)
    (hp : findProduct st id = some p) (hown : p.OwnerUserID = u.ID)
    (hdi : env.deleteImagesFails = false) (hdp : env.deleteFails = false) :
    ∃ st1 st2 : Store,
      DeleteProductStates env (some u) req st = [st1, st2] ∧
      DeleteProduct env (some u) req st = (status 204, st2) ∧
      dbDeleteImagesWhere env st id = some st1 ∧
      dbDeleteProduct env st1 p = some st2 ∧
      p ∈ st1.products ∧
      (∀ img ∈ st1.images, (img.ProductID : Int) ≠ id) ∧
      (∀ q ∈ st2.products, (q.ID : Int) ≠ id) ∧
      (∀ img ∈ st2.images, (img.ProductID : Int) ≠ id) ∧
      (∀ s ∈ DeleteProductStates env (some u) req st, NoDangling s id) := by
  have hlen2 : ¬ req.contentLength > 0 := not_lt.mpr hlen
  obtain ⟨hmem, hpid⟩ := findProduct_some hp
  have himg : ∀ img ∈ st.images.filter (fun i => decide ((i.ProductID : Int) ≠ id)),
      (img.ProductID : Int) ≠ id := by
    intro img h
    simpa using (List.mem_filter.mp h).2
  have hstates : DeleteProductStates env (some u) req st =
      [{ st with images := st.images.filter (fun i => decide ((i.ProductID : Int) ≠ id)) },
       { st with images := st.images.filter (fun i => decide ((i.ProductID : Int) ≠ id)),
                 products := st.products.filter (fun q => decide (q.ID ≠ p.ID)) }] := by
    simp [DeleteProductStates, hid, hq, hlen2, hp, hown, dbDeleteImagesWhere, hdi,
      dbDeleteProduct, hdp]
  refine ⟨_, _, hstates, ?_, ?_, ?_, hmem, himg, ?_, himg, ?_⟩
  · simp [DeleteProduct, hid, hq, hlen2, hp, hown, dbDeleteImagesWhere, hdi,
      dbDeleteProduct, hdp]
  · simp [dbDeleteImagesWhere, hdi]
  · simp [dbDeleteProduct, hdp]
  · intro q hq2
    have h1 : q.ID ≠ p.ID := by simpa using (List.mem_filter.mp hq2).2
    intro h2
    apply h1
    have : (q.ID : Int) = (p.ID : Int) := h2.trans hpid.symm
    exact_mod_cast this
  · intro s hs
    rw [hstates] at hs
    simp only [List.mem_cons, List.mem_singleton, List.not_mem_nil, or_false] at hs
    have hs2 : ∀ img ∈ s.images, (img.ProductID : Int) ≠ id := by
      rcases hs with rfl | rfl <;> exact himg
    rintro ⟨img, hi, hr⟩
    exact absurd hr (hs2 img hi)

/-- Instance of the order: alice deletes her widget, which has one photo. -/
theorem deleteProduct_images_first_witness :
    DeleteProductStates {} (some alice) { method := "DELETE", productId := "1" } sampleStore =
      [{ sampleStore with images := [] }, { sampleStore with images := [], products := [] }] ∧
    DeleteProduct {} (some alice) { method := "DELETE", productId := "1" } sampleStore =
      (status 204, { sampleStore with images := [], products := [] }) := by
  obtain ⟨st1, st2, h1, h2, h3, h4, _⟩ := deleteProduct_images_first {} alice
    { method := "DELETE", productId := "1" } sampleStore 1 widget (by decide) rfl (by decide)
    (by decide) rfl rfl rfl
  have e1 : st1 = { sampleStore with images := [] } := by
    have : dbDeleteImagesWhere {} sampleStore 1 = some { sampleStore with images := [] } := by
      decide
    exact Option.some.inj (h3.symm.trans this)
  subst e1
  have e2 : st2 = { sampleStore with images := [], products := [] } := by
    have : dbDeleteProduct {} { sampleStore with images := [] } widget =
        some { sampleStore with images := [], products := [] } := by decide
    exact Option.some.inj (h4.symm.trans this)
  subst e2
  exact ⟨h1, h2⟩

/-- C18: GetHealth answers 405 to every request whose method is not GET; 400,
with the store unchanged, to a GET that carries a body (positive content length
or a Transfer-Encoding header), a query string or an Authorization header; and
to any other GET it answers 200 after appending exactly one health-check row,
or 503 with the store unchanged when that insert fails. -/
theorem getHealth_decision (env : Env) (req : Request) (st : Store) :
    (req.method ≠ "GET" → GetHealth env req st = (status 405, st)) ∧
    (req.method = "GET" →
      (req.contentLength > 0 ∨ req.transferEncoding ≠ "" ∨ req.query ≠ [] ∨
        req.authorization ≠ "") →
      GetHealth env req st = (status 400, st)) ∧
    (req.method = "GET" →
      ¬ (req.contentLength > 0 ∨ req.transferEncoding ≠ "" ∨ req.query ≠ [] ∨
        req.authorization ≠ "") →
      (env.insertFails = false →
        GetHealth env req st =
          (status 200,
           { st with
             healthChecks := st.healthChecks ++
               [{ CheckID := st.healthSeq + 1, CheckDatetime := env.now }],
             healthSeq := st.healthSeq + 1 })) ∧
      (env.insertFails = true → GetHealth env req st = (status 503, st))) := by
  refine ⟨?_, ?_, ?_⟩
  · intro hm
    simp [GetHealth, hm]
  · intro hm hbad
    have hbad2 : (req.contentLength > 0 ∨ req.transferEncoding ≠ "") ∨
        req.query.length > 0 ∨ req.authorization ≠ "" := by
      rcases hbad with h | h | h | h
      · exact Or.inl (Or.inl h)
      · exact Or.inl (Or.inr h)
      · exact Or.inr (Or.inl (List.length_pos.mpr h))
      · exact Or.inr (Or.inr h)
    simp only [GetHealth, hm, ne_eq, not_true_eq_false, if_false, hbad2, if_true]
  · intro hm hgood
    push_neg at hgood
    obtain ⟨h1, h2, h3, h4⟩ := hgood
    have hgood2 : ¬ ((req.contentLength > 0 ∨ req.transferEncoding ≠ "") ∨
        req.query.length > 0 ∨ req.authorization ≠ "") := by
      simp [h1, h2, h3, h4]
    constructor
    · intro hins
      simp only [GetHealth, hm, ne_eq, not_true_eq_false, if_false, hgood2,
        dbInsertHealthCheck, hins]
      rfl
    · intro hins
      simp only [GetHealth, hm, ne_eq, not_true_eq_false, if_false, hgood2,
        dbInsertHealthCheck, hins]
      rfl

/-- Instance of C18: a POST, a GET with a query string, a plain GET, and a
plain GET while the insert fails. -/
theorem getHealth_decision_witness :
    GetHealth {} { method := "POST" } sampleStore = (status 405, sampleStore) ∧
    GetHealth {} { method := "GET", query := [("bad", "param")] } sampleStore
      = (status 400, sampleStore) ∧
    GetHealth {} { method := "GET" } sampleStore
      = (status 200, { sampleStore with
          healthChecks := [{ CheckID := 1, CheckDatetime := 0 }], healthSeq := 1 }) ∧
    GetHealth { insertFails := true } { method := "GET" } sampleStore
      = (status 503, sampleStore) :=
  ⟨(getHealth_decision {} { method := "POST" } sampleStore).1 (by decide),
   (getHealth_decision {} { method := "GET", query := [("bad", "param")] } sampleStore).2.1
      rfl (Or.inr (Or.inr (Or.inl (by decide)))),
   ((getHealth_decision {} { method := "GET" } sampleStore).2.2 rfl (by decide)).1 rfl,
   ((getHealth_decision { insertFails := true } { method := "GET" } sampleStore).2.2 rfl
      (by decide)).2 rfl⟩

/-- C19 as stated fails for the product reads: a GET of product 1, and a GET of
all products, that carry an Authorization header are answered 200 with the
stored rows; isValidRequest does not look at that header. -/
theorem product_reads_ignore_authorization :
    GetProduct {} { method := "GET", productId := "1", authorization := "Basic YTpi" }
      sampleStore = ({ status := 200, body := Body.product widget }, sampleStore) ∧
    GetAllProduct {} { method := "GET", authorization := "Basic YTpi" } sampleStore
      = ({ status := 200, body := Body.products [widget] }, sampleStore) := by
  decide

/-- C19, amended: each anonymous read (get one product, get all products, get
one image, get all images) answers 400 to a GET request that carries a query
string or a positive body length, and the two image reads also answer 400 to a
request that carries an Authorization header; the answer is the same for every
store and every outcome of the store, which is not read and not changed. -/
theorem anonymous_reads_reject (req : Request) (hm : req.method ≠ "HEAD") :
    ((req.query ≠ [] ∨ req.contentLength > 0) →
      ∀ (env : Env) (st : Store),
        GetProduct env req st = (status 400, st) ∧
        GetAllProduct env req st = (status 400, st) ∧
        GetImage env req st = (status 400, st) ∧
        GetAllImage env req st = (status 400, st)) ∧
    (req.authorization ≠ "" →
      ∀ (env : Env) (st : Store),
        GetImage env req st = (status 400, st) ∧
        GetAllImage env req st = (status 400, st)) := by
  constructor
  · intro hbad env st
    have hv : isValidRequest req false = false := by
      unfold isValidRequest
      rcases hbad with h | h
      · simp [List.length_pos.mpr h]
      · by_cases hq : req.query.length > 0 <;> simp [hq, h]
    have hbad2 : req.query.length > 0 ∨ req.contentLength > 0 ∨ req.authorization ≠ "" := by
      rcases hbad with h | h
      · exact Or.inl (List.length_pos.mpr h)
      · exact Or.inr (Or.inl h)
    refine ⟨?_, ?_, ?_, ?_⟩
    · unfold GetProduct
      simp only [hm, if_false, hv]
      split <;> rfl
    · simp [GetAllProduct, hm, hv]
    · unfold GetImage
      simp only [hm, if_false, hbad2, if_true]
      split <;> rfl
    · unfold GetAllImage
      simp only [hm, if_false, hbad2, if_true]
  · intro hauth env st
    have hbad2 : req.query.length > 0 ∨ req.contentLength > 0 ∨ req.authorization ≠ "" :=
      Or.inr (Or.inr hauth)
    constructor
    · unfold GetImage
      simp only [hm, if_false, hbad2, if_true]
      split <;> rfl
    · unfold GetAllImage
      simp only [hm, if_false, hbad2, if_true]

/-- Instance of C19 amended: a GET with a query string on the four reads, and a
GET with an Authorization header on the image reads. -/
theorem anonymous_reads_reject_witness :
    (GetProduct {} { method := "GET", productId := "1", query := [("a", "b")] } sampleStore
        = (status 400, sampleStore) ∧
      GetAllProduct {} { method := "GET", productId := "1", query := [("a", "b")] } sampleStore
        = (status 400, sampleStore)) ∧
    (GetImage {}
        { method := "GET", productId := "1", imageId := "1", authorization := "Basic YTpi" }
        sampleStore = (status 400, sampleStore) ∧
      GetAllImage {}
        { method := "GET", productId := "1", imageId := "1", authorization := "Basic YTpi" }
        sampleStore = (status 400, sampleStore)) :=
  ⟨⟨((anonymous_reads_reject
        { method := "GET", productId := "1", query := [("a", "b")] } (by decide)).1
        (Or.inl (by decide)) {} sampleStore).1,
     ((anonymous_reads_reject
        { method := "GET", productId := "1", query := [("a", "b")] } (by decide)).1
        (Or.inl (by decide)) {} sampleStore).2.1⟩,
   (anonymous_reads_reject
      { method := "GET", productId := "1", imageId := "1", authorization := "Basic YTpi" }
      (by decide)).2 (by decide) {} sampleStore⟩

/-- C20: a CreateImage request by an authenticated principal that has a query
parameter, or no attached file, or an attached file whose declared content type
is not in the allow-list, is answered 400 with the store, bucket included, left
as it was, whatever the outcomes of the collaborators would be: neither the
blob put nor the row insert is reached. -/
theorem createImage_validation (u : User) (req : Request) (st : Store)
    (hbad : req.query ≠ [] ∨ req.file = none ∨
      ∃ f : FileHeader, req.file = some f ∧ f.ContentType ∉ allowedImageTypes) :
    ∀ env : Env, CreateImage env (some u) req st = (status 400, st) := by
  intro env
  unfold CreateImage
  by_cases hq : req.query.length > 0
  · simp [hq]
  · simp only [hq, if_false]
    have hq2 : req.query = [] := by
      cases hl : req.query with
      | nil => rfl
      | cons a b => simp [hl] at hq
    rcases hbad with h | h | ⟨f, hf, hct⟩
    · exact absurd hq2 h
    · simp [h]
    · have hct2 : f.ContentType ≠ "image/jpeg" ∧ f.ContentType ≠ "image/png" ∧
          f.ContentType ≠ "image/jpg" := by
        simpa [allowedImageTypes] using hct
      simp [hf, hct2]

/-- Instance of C20: alice uploads a gif for her widget, with collaborators that
succeed and with collaborators that fail. -/
theorem createImage_validation_witness :
    CreateImage {} (some alice)
      { method := "POST", productId := "1",
        file := some { Filename := "a.gif", ContentType := "image/gif" } } sampleStore
      = (status 400, sampleStore) ∧
    CreateImage { blobPutFails := true, insertFails := true } (some alice)
      { method := "POST", productId := "1",
        file := some { Filename := "a.gif", ContentType := "image/gif" } } sampleStore
      = (status 400, sampleStore) :=
  ⟨createImage_validation alice
      { method := "POST", productId := "1",
        file := some { Filename := "a.gif", ContentType := "image/gif" } } sampleStore
      (Or.inr (Or.inr ⟨{ Filename := "a.gif", ContentType := "image/gif" }, rfl, by decide⟩))
      {},
   createImage_validation alice
      { method := "POST", productId := "1",
        file := some { Filename := "a.gif", ContentType := "image/gif" } } sampleStore
      (Or.inr (Or.inr ⟨{ Filename := "a.gif", ContentType := "image/gif" }, rfl, by decide⟩))
      { blobPutFails := true, insertFails := true }⟩

theorem get?_append_cons (l r : List Char) (x : Char) :
    (l ++ x :: r).get? l.length = some x := by
  induction l with
  | nil => rfl
  | cons y l ih => simpa using ih

theorem matchEmail_of_shape (loc a b : List Char)
    (h1 : isHandleRun loc = true) (h2 : isHandleRun a = true) (h3 : isHandleRun b = true) :
    matchEmail (loc ++ '@' :: (a ++ '.' :: b)) = true := by
  unfold matchEmail
  rw [List.any_eq_true]
  refine ⟨loc.length, by simp, ?_⟩
  rw [List.any_eq_true]
  refine ⟨loc.length + 1 + a.length, by simp; omega, ?_⟩
  have e1 : (loc ++ '@' :: (a ++ '.' :: b)).get? loc.length = some '@' :=
    get?_append_cons _ _ _
  have e2 : (loc ++ '@' :: (a ++ '.' :: b)).get? (loc.length + 1 + a.length) = some '.' := by
    have : loc ++ '@' :: (a ++ '.' :: b) = (loc ++ '@' :: a) ++ '.' :: b := by simp
    rw [this]
    have hl : (loc ++ '@' :: a).length = loc.length + 1 + a.length := by simp; omega
    rw [← hl]
    exact get?_append_cons _ _ _
  have e3 : (loc ++ '@' :: (a ++ '.' :: b)).take loc.length = loc := by simp
  have e4 : ((loc ++ '@' :: (a ++ '.' :: b)).take (loc.length + 1 + a.length)).drop
      (loc.length + 1) = a := by
    have : loc ++ '@' :: (a ++ '.' :: b) = (loc ++ ['@']) ++ (a ++ '.' :: b) := by simp
    rw [this]
    have hl : (loc ++ ['@']).length = loc.length + 1 := by simp
    rw [← hl, List.take_append, List.drop_left]
    simp
  have e5 : (loc ++ '@' :: (a ++ '.' :: b)).drop (loc.length + 1 + a.length + 1) = b := by
    have : loc ++ '@' :: (a ++ '.' :: b) = (loc ++ '@' :: a ++ ['.']) ++ b := by simp
    rw [this]
    have hl : (loc ++ '@' :: a ++ ['.']).length = loc.length + 1 + a.length + 1 := by
      simp; omega
    rw [← hl, List.drop_left]
  rw [e1, e2, e3, e4, e5, h1, h2, h3]
  simp
  omega

theorem split_at_get? (cs : List Char) (i : Nat) (x : Char) (h : cs.get? i = some x) :
    cs = cs.take i ++ x :: cs.drop (i + 1) := by
  induction cs generalizing i with
  | nil => simp at h
  | cons y ys ih =>
    cases i with
    | zero =>
      simp at h
      simp [h]
    | succ n =>
      simp only [List.get?_cons_succ] at h
      simp only [List.take_succ_cons, List.drop_succ_cons, List.cons_append, List.cons.injEq,
        true_and]
      exact ih n h

theorem shape_of_matchEmail (cs : List Char) (h : matchEmail cs = true) :
    DottedEmailShape cs := by
  unfold matchEmail at h
  rw [List.any_eq_true] at h
  obtain ⟨i, _, h⟩ := h
  rw [List.any_eq_true] at h
  obtain ⟨j, _, h⟩ := h
  simp only [Bool.and_eq_true, decide_eq_true_eq, beq_iff_eq] at h
  obtain ⟨⟨⟨⟨⟨hij, hi⟩, hj⟩, h1⟩, h2⟩, h3⟩ := h
  refine ⟨cs.take i, (cs.take j).drop (i + 1), cs.drop (j + 1), ?_, h1, h2, h3⟩
  have e1 := split_at_get? cs i '@' hi
  have e2 := split_at_get? cs j '.' hj
  have e3 : cs.drop (i + 1) = (cs.take j).drop (i + 1) ++ '.' :: cs.drop (j + 1) := by
    have hlen : (cs.take j).length = j := by
      have : j < cs.length := by
        by_contra hc
        have := List.get?_eq_none.mpr (not_lt.mp hc)
        rw [this] at hj
        cases hj
      simp [List.length_take]
      omega
    conv_lhs => rw [e2]
    rw [List.drop_append_of_le_length (by rw [hlen]; omega)]
  conv_lhs => rw [e1, e3]

theorem matchEmail_iff (cs : List Char) : matchEmail cs = true ↔ DottedEmailShape cs := by
  constructor
  · exact shape_of_matchEmail cs
  · rintro ⟨loc, a, b, rfl, h1, h2, h3⟩
    exact matchEmail_of_shape loc a b h1 h2 h3

/-- C21 as stated fails: the handle a@b has the simple email shape (non-empty
local part, one '@', non-empty domain part, no whitespace), yet validateEmail
does not accept it, because its pattern also asks for a '.' inside the domain
part. -/
theorem validateEmail_rejects_undotted_domain :
    SimpleEmailShape (toLower "a@b").data ∧ validateEmail "a@b" = false :=
  ⟨⟨['a'], ['b'], by decide, by decide, by decide⟩, by decide⟩

/-- C21, amended: validateEmail accepts a login handle exactly when its
lower-case form is a non-empty local part, one '@', and a domain part made of
two non-empty parts joined by a '.', with no whitespace (tab, newline, form
feed, carriage return, space) and no second '@' anywhere; and CreateUser
answers 400, with the store unchanged, for every handle validateEmail does not
accept. -/
theorem validateEmail_shape (email : String) :
    (validateEmail email = true ↔ DottedEmailShape (toLower email).data) ∧
    (validateEmail email = false →
      ∀ (env : Env) (req : Request) (st : Store) (cr : CreateUserRequest),
        ShouldBindJSON req.body = some cr → cr.Username = email →
        CreateUser env req st = (status 400, st)) := by
  refine ⟨matchEmail_iff _, ?_⟩
  intro hbad env req st cr hbind hname
  subst hname
  unfold CreateUser
  simp only [hbind, hbad]
  split_ifs <;> first | rfl | simp_all

/-- Instance of C21 amended: Foo@Example.com is accepted and has the dotted
shape; a CreateUser for the handle a@b is answered 400 and creates nothing. -/
theorem validateEmail_shape_witness :
    DottedEmailShape (toLower "Foo@Example.com").data ∧
    CreateUser sampleEnv
      { method := "POST", contentLength := 90,
        body := some (JSON.obj [("first_name", JSON.str "A"), ("last_name", JSON.str "B"),
          ("password", JSON.str "Password123"), ("username", JSON.str "a@b")]) }
      sampleStore = (status 400, sampleStore) :=
  ⟨(validateEmail_shape "Foo@Example.com").1.mp (by decide),
   (validateEmail_shape "a@b").2 (by decide) sampleEnv
      { method := "POST", contentLength := 90,
        body := some (JSON.obj [("first_name", JSON.str "A"), ("last_name", JSON.str "B"),
          ("password", JSON.str "Password123"), ("username", JSON.str "a@b")]) }
      sampleStore
      { FirstName := "A", LastName := "B", Password := "Password123", Username := "a@b" }
      (by decide) rfl⟩

/-- C22 as stated fails: alice posts a valid product while the insert fails; the
same request is answered 201 when the insert succeeds, and 400, not 503, when
it fails. -/
theorem insert_failure_answers_400 :
    (CreateProduct {} (some alice) (createRequest (JSON.int 50)) sampleStore).1.status = 201 ∧
    (CreateProduct { insertFails := true } (some alice) (createRequest (JSON.int 50))
      sampleStore).1.status = 400 ∧
    (CreateProduct { insertFails := true } (some alice) (createRequest (JSON.int 50))
      sampleStore).1.status ≠ 503 := by
  decide

/-- C22, amended: when the write issued by CreateProduct, UpdatePutProduct,
UpdatePatchProduct or CreateImage fails, that is, when the request would
succeed were it not for the failing write, the response status is 400; for the
three product handlers the store is unchanged, and for CreateImage the store is
the one right after the blob upload: the uploaded blob is in the bucket, no
image row was added and no delete of the blob follows. -/
theorem write_failure_answers_400 (env : Env) (user : Option User) (req : Request)
    (st : Store) :
    (env.insertFails = true →
      (CreateProduct { env with insertFails := false } user req st).1.status = 201 →
      CreateProduct env user req st = (status 400, st)) ∧
    (env.updateFails = true →
      (UpdatePutProduct { env with updateFails := false } user req st).1.status = 204 →
      UpdatePutProduct env user req st = (status 400, st)) ∧
    (env.updateFails = true →
      (UpdatePatchProduct { env with updateFails := false } user req st).1.status = 204 →
      UpdatePatchProduct env user req st = (status 400, st)) ∧
    (env.insertFails = true →
      (CreateImage { env with insertFails := false } user req st).1.status = 201 →
      ∃ (key : String) (st1 : Store),
        s3PutObject env st key = some st1 ∧
        CreateImage env user req st = (status 400, st1) ∧
        key ∈ st1.blobs ∧ st1.images = st.images) := by
  refine ⟨?_, ?_, ?_, ?_⟩
  · intro hf h
    unfold CreateProduct at h ⊢
    repeat' first | split at h | (dsimp only at h; split at h)
    all_goals first | (simp [status] at h; done) | skip
    simp_all [dbInsertProduct]
  · intro hf h
    unfold UpdatePutProduct at h ⊢
    repeat' first | split at h | (dsimp only at h; split at h)
    all_goals first | (simp [status] at h; done) | skip
    simp_all [dbUpdateProduct]
  · intro hf h
    unfold UpdatePatchProduct at h ⊢
    repeat' split at h
    all_goals first | (simp [status] at h; done) | skip
    simp_all [dbUpdateProduct]
  · intro hf h
    unfold CreateImage at h
    repeat' first | split at h | (dsimp only at h; split at h)
    all_goals first | (simp [status] at h; done) | skip
    rename_i authUser _ _ fileHeader hfile _ _ _ product hprod _ _ st1 hput _ row st2 hins
    have hput2 : s3PutObject env st
        (toString authUser.ID ++ "/" ++ toString (atoiValue req.productId) ++ "/" ++
          (env.uuid ++ "-" ++ fileHeader.Filename)) = some st1 := by
      simpa [s3PutObject] using hput
    obtain ⟨hi, hk, _, _⟩ := s3PutObject_blobs hput2
    refine ⟨_, st1, hput2, ?_, hk, hi⟩
    simp_all [CreateImage, dbInsertImage]

/-- Instance of C22 amended: alice posts a valid product, and uploads a png for
her widget, while the insert fails. -/
theorem write_failure_answers_400_witness :
    CreateProduct { insertFails := true } (some alice) (createRequest (JSON.int 50)) sampleStore
      = (status 400, sampleStore) ∧
    ∃ (key : String) (st1 : Store),
      s3PutObject { insertFails := true } sampleStore key = some st1 ∧
      CreateImage { insertFails := true } (some alice)
        { method := "POST", productId := "1", file := some pngFile } sampleStore
        = (status 400, st1) ∧
      key ∈ st1.blobs ∧ st1.images = sampleStore.images :=
  ⟨(write_failure_answers_400 { insertFails := true } (some alice)
      (createRequest (JSON.int 50)) sampleStore).1 rfl (by decide),
   (write_failure_answers_400 { insertFails := true } (some alice)
      { method := "POST", productId := "1", file := some pngFile } sampleStore).2.2.2 rfl
      (by decide)⟩

/-- C23, evaluated at failing inputs: alice deletes her widget while both DELETE
statements fail, and DeleteProduct answers 204 with the product and its image
still stored; the two list reads answer 200, with an empty list, while their
query fails. -/
theorem store_errors_swallowed :
    DeleteProduct { deleteImagesFails := true, deleteFails := true } (some alice)
      { method := "DELETE", productId := "1" } sampleStore = (status 204, sampleStore) ∧
    GetAllProduct { findAllFails := true } { method := "GET" } sampleStore
      = ({ status := 200, body := Body.products [] }, sampleStore) ∧
    GetAllImage { findAllFails := true } { method := "GET", productId := "1" } sampleStore
      = ({ status := 200, body := Body.images [] }, sampleStore) := by
  decide

/-- Fieldset with the timestamp assigned: the other assignments are applied,
and the assignment of date_last_updated changes nothing. -/
theorem applyFields_set_time (m : GoMap) (t : Nat) (p : Product) :
    applyFields (GoMap.set m "date_last_updated" (Value.time t)) p =
      applyFields (m.filter (fun kv => decide (kv.1 ≠ "date_last_updated"))) p := by
  unfold applyFields GoMap.set
  rw [List.foldlM_append]
  cases List.foldlM (fun row kv => setColumn row kv.1 kv.2) p
      (List.filter (fun kv => decide (kv.1 ≠ "date_last_updated")) m) with
  | none => rfl
  | some row => simp [setColumn]

/-- Whether the UPDATE of a patch is refused by the table does not depend on the
instant written to date_last_updated. -/
theorem dbUpdateProduct_set_time_none {env0 env : Env} {st : Store} {p : Product} {m : GoMap}
    (h : dbUpdateProduct env0 st p (GoMap.set m "date_last_updated" (Value.time env0.now)) = none)
    (hf : env0.updateFails = false) :
    dbUpdateProduct env st p (GoMap.set m "date_last_updated" (Value.time env.now)) = none := by
  revert h
  unfold dbUpdateProduct
  rw [applyFields_set_time, applyFields_set_time]
  cases applyFields (m.filter (fun kv => decide (kv.1 ≠ "date_last_updated"))) p <;> simp [hf]

/-- The fieldset of a full update fits the table once the quantity is within
bounds. -/
theorem applyFields_put (n d s m : String) (q : Int) (t : Nat) (p : Product)
    (h0 : 0 ≤ q) (h100 : q ≤ 100) :
    applyFields
      [("name", Value.string n), ("description", Value.string d), ("sku", Value.string s),
       ("manufacturer", Value.string m), ("quantity", Value.int q),
       ("date_last_updated", Value.time t)] p =
      some { p with Name := n, Description := d, Sku := s, Manufacturer := m, Quantity := q } := by
  simp [applyFields, List.foldlM, setColumn, h0, h100]

/-- C24: a write operation that rejects a request leaves both stores as they
were. For every write handler a 400 that does not come from a failing store
write is given whatever the collaborators would do, with the store unchanged,
so that no insert, update, delete, blob put or blob delete is reached; and for
CreateUser every 400 leaves the store unchanged. -/
theorem rejection_leaves_stores (env0 : Env) (user : Option User) (req : Request)
    (st : Store) :
    ((CreateUser env0 req st).1.status = 400 → (CreateUser env0 req st).2 = st) ∧
    ((UpdateUser env0 user req st).1.status = 400 → env0.updateFails = false →
      ∀ env : Env, UpdateUser env user req st = (status 400, st)) ∧
    ((CreateProduct env0 user req st).1.status = 400 → env0.insertFails = false →
      ∀ env : Env, CreateProduct env user req st = (status 400, st)) ∧
    ((UpdatePutProduct env0 user req st).1.status = 400 → env0.updateFails = false →
      ∀ env : Env, UpdatePutProduct env user req st = (status 400, st)) ∧
    ((UpdatePatchProduct env0 user req st).1.status = 400 → env0.updateFails = false →
      ∀ env : Env, UpdatePatchProduct env user req st = (status 400, st)) ∧
    ((DeleteProduct env0 user req st).1.status = 400 →
      ∀ env : Env, DeleteProduct env user req st = (status 400, st)) ∧
    ((CreateImage env0 user req st).1.status = 400 → env0.insertFails = false →
      ∀ env : Env, CreateImage env user req st = (status 400, st)) ∧
    ((DeleteImage env0 user req st).1.status = 400 →
      ∀ env : Env, DeleteImage env user req st = (status 400, st)) := by
  refine ⟨?_, ?_, ?_, ?_, ?_, ?_, ?_, ?_⟩
  · intro h
    unfold CreateUser at h ⊢
    repeat' first | split at h | (dsimp only at h; split at h)
    all_goals first | (simp [status] at h; done) | skip
    all_goals simp_all
  · intro h hf env
    unfold UpdateUser at h ⊢
    repeat' first | split at h | (dsimp only at h; split at h)
    all_goals first | (simp [status] at h; done) | skip
    all_goals simp_all [dbUpdateUser, applyUserFields, setUserColumn]
  · intro h hf env
    unfold CreateProduct at h ⊢
    repeat' first | split at h | (dsimp only at h; split at h)
    all_goals first | (simp [status] at h; done) | skip
    all_goals simp_all [dbInsertProduct]
  · intro h hf env
    unfold UpdatePutProduct at h ⊢
    repeat' first | split at h | (dsimp only at h; split at h)
    all_goals first | (simp [status] at h; done) | skip
    all_goals first
      | (rename_i hq _ hup
         exfalso
         push_neg at hq
         simp [dbUpdateProduct, hf, applyFields_put _ _ _ _ _ _ _ hq.1 hq.2] at hup)
      | simp_all
  · intro h hf env
    unfold UpdatePatchProduct at h ⊢
    repeat' split at h
    all_goals first | (simp [status] at h; done) | skip
    all_goals first
      | (rename_i hup; simp_all [dbUpdateProduct_set_time_none hup hf])
      | simp_all
  · intro h env
    unfold DeleteProduct at h ⊢
    repeat' split at h
    all_goals first | (simp [status] at h; done) | skip
    all_goals simp_all
  · intro h hf env
    unfold CreateImage at h ⊢
    repeat' first | split at h | (dsimp only at h; split at h)
    all_goals first | (simp [status] at h; done) | skip
    all_goals simp_all [dbInsertImage]
  · intro h env
    unfold DeleteImage at h ⊢
    repeat' first | split at h | (dsimp only at h; split at h)
    all_goals first | (simp [status] at h; done) | skip
    all_goals simp_all

/-- Instance of C24: a product with quantity 101 and an upload without a file
are answered 400 with the stores unchanged, also where every store write would
fail. -/
theorem rejection_leaves_stores_witness :
    (CreateProduct {} (some alice) (createRequest (JSON.int 101)) sampleStore).1.status = 400 ∧
    CreateProduct { insertFails := true } (some alice) (createRequest (JSON.int 101)) sampleStore
      = (status 400, sampleStore) ∧
    CreateImage { insertFails := true, blobPutFails := true } (some alice)
      { method := "POST", productId := "1" } sampleStore = (status 400, sampleStore) :=
  ⟨by decide,
   (rejection_leaves_stores {} (some alice) (createRequest (JSON.int 101)) sampleStore).2.2.1
     (by decide) rfl { insertFails := true },
   (rejection_leaves_stores {} (some alice) { method := "POST", productId := "1" }
     sampleStore).2.2.2.2.2.2.1 (by decide) rfl { insertFails := true, blobPutFails := true }⟩

/-- C25 as stated fails: the file checks come before the product lookup. With no
file attached, alice's upload to product 99, which does not exist, is answered
400 (not 404); and bob's upload of a text file to the widget, which alice owns,
is answered 400 (not 403). -/
theorem createImage_file_checked_first :
    atoiValue "99" = 99 ∧ NoProduct sampleStore 99 ∧
    CreateImage {} (some alice) { method := "POST", productId := "99" } sampleStore
      = (status 400, sampleStore) ∧
    atoiValue "1" = 1 ∧ OwnedByOther sampleStore 1 bob ∧
    CreateImage {} (some bob)
      { method := "POST", productId := "1",
        file := some { Filename := "notes.txt", ContentType := "text/plain" } } sampleStore
      = (status 400, sampleStore) := by
  decide

/-- C25, amended: CreateImage applies its checks in the order authentication,
query string, file presence, content type, product existence, ownership. Without
a principal the answer is 401; with a query string, without a file, or with a
file of a disallowed content type it is 400 whatever the product id; with a
file of an allowed content type, a product id that does not exist yields 404
and a product owned by another account yields 403. -/
theorem createImage_check_order (env : Env) (u : User) (req : Request) (st : Store) :
    CreateImage env none req st = (status 401, st) ∧
    (req.query ≠ [] → CreateImage env (some u) req st = (status 400, st)) ∧
    (req.query = [] → req.file = none → CreateImage env (some u) req st = (status 400, st)) ∧
    (req.query = [] → ∀ f : FileHeader, req.file = some f →
      f.ContentType ∉ allowedImageTypes → CreateImage env (some u) req st = (status 400, st)) ∧
    (req.query = [] → ∀ f : FileHeader, req.file = some f →
      f.ContentType ∈ allowedImageTypes → NoProduct st (atoiValue req.productId) →
      CreateImage env (some u) req st = (status 404, st)) ∧
    (req.query = [] → ∀ f : FileHeader, req.file = some f →
      f.ContentType ∈ allowedImageTypes →
      ∀ p : Product, findProduct st (atoiValue req.productId) = some p →
        p.OwnerUserID ≠ u.ID → CreateImage env (some u) req st = (status 403, st)) := by
  refine ⟨rfl, ?_, ?_, ?_, ?_, ?_⟩
  · intro hq
    have : req.query.length > 0 := List.length_pos.mpr hq
    simp [CreateImage, this]
  · intro hq hf
    simp [CreateImage, hq, hf]
  · intro hq f hf ht
    simp only [allowedImageTypes, List.mem_cons, List.mem_singleton, List.not_mem_nil,
      or_false, not_or] at ht
    simp [CreateImage, hq, hf, ht]
  · intro hq f hf ht hno
    simp only [allowedImageTypes, List.mem_cons, List.mem_singleton, List.not_mem_nil,
      or_false] at ht
    have hnot : ¬(f.ContentType ≠ "image/jpeg" ∧ f.ContentType ≠ "image/png" ∧
        f.ContentType ≠ "image/jpg") := by
      rcases ht with h | h | h <;> simp [h]
    simp only [CreateImage, hq, hf, findProduct_none hno]
    simp [hnot]
  · intro hq f hf ht p hp ho
    simp only [allowedImageTypes, List.mem_cons, List.mem_singleton, List.not_mem_nil,
      or_false] at ht
    have hnot : ¬(f.ContentType ≠ "image/jpeg" ∧ f.ContentType ≠ "image/png" ∧
        f.ContentType ≠ "image/jpg") := by
      rcases ht with h | h | h <;> simp [h]
    simp only [CreateImage, hq, hf, hp]
    simp [hnot, ho]

/-- Instance of C25 amended: with a PNG attached, alice's upload to product 99
is answered 404 and bob's upload to alice's widget 403; without the file the
upload to product 99 is answered 400. -/
theorem createImage_check_order_witness :
    CreateImage {} (some alice) { method := "POST", productId := "99", file := some pngFile }
      sampleStore = (status 404, sampleStore) ∧
    CreateImage {} (some bob) { method := "POST", productId := "1", file := some pngFile }
      sampleStore = (status 403, sampleStore) ∧
    CreateImage {} (some alice) { method := "POST", productId := "99" } sampleStore
      = (status 400, sampleStore) :=
  ⟨(createImage_check_order {} alice { method := "POST", productId := "99", file := some pngFile }
      sampleStore).2.2.2.2.1 rfl pngFile rfl (by decide) (by decide),
   (createImage_check_order {} bob { method := "POST", productId := "1", file := some pngFile }
      sampleStore).2.2.2.2.2 rfl pngFile rfl (by decide) widget (by decide) (by decide),
   (createImage_check_order {} alice { method := "POST", productId := "99" }
      sampleStore).2.2.1 rfl rfl⟩

/-- C27, evaluated at a failing input: alice patches her widget with the payload
that sets name to the empty string; the answer is 204 and the row now has an
empty name, while CreateProduct answers 400 to a payload with the same name and
inserts nothing. -/
theorem patch_accepts_empty_name :
    UpdatePatchProduct {} (some alice)
      { method := "PATCH", productId := "1", contentLength := 11,
        body := some (JSON.obj [("name", JSON.str "")]) } sampleStore
      = (status 204, { sampleStore with products := [{ widget with Name := "" }] }) ∧
    CreateProduct {} (some alice)
      { method := "POST", contentLength := 80,
        body := some (JSON.obj (productMembers "" "Y" "S" "M" (JSON.int 50))) } sampleStore
      = (status 400, sampleStore) := by
  decide

/-- What a CreateImage that answers 201 did: the principal, the file and the
product it resolved, the store after the blob put under the key built from
them, and the row inserted after that. -/
theorem createImage_201 (env : Env) (user : Option User) (req : Request) (st : Store)
    (h : (CreateImage env user req st).1.status = 201) :
    ∃ (u : User) (f : FileHeader) (p : Product) (st1 : Store),
      user = some u ∧ req.file = some f ∧
      findProduct st (atoiValue req.productId) = some p ∧ p.OwnerUserID = u.ID ∧
      s3PutObject env st
        (toString u.ID ++ "/" ++ toString (atoiValue req.productId) ++ "/" ++
          (env.uuid ++ "-" ++ f.Filename)) = some st1 ∧
      env.insertFails = false ∧
      CreateImage env user req st =
        ({ status := 201,
           body := Body.image
             { ImageID := st1.imageSeq + 1, ProductID := (atoiValue req.productId).toNat,
               FileName := f.Filename,
               S3BucketPath := toString u.ID ++ "/" ++ toString (atoiValue req.productId) ++ "/" ++
                 (env.uuid ++ "-" ++ f.Filename),
               DateCreated := env.now } },
         { st1 with
           images := st1.images ++
             [{ ImageID := st1.imageSeq + 1, ProductID := (atoiValue req.productId).toNat,
                FileName := f.Filename,
                S3BucketPath := toString u.ID ++ "/" ++ toString (atoiValue req.productId) ++
                  "/" ++ (env.uuid ++ "-" ++ f.Filename),
                DateCreated := env.now }],
           imageSeq := st1.imageSeq + 1 }) := by
  unfold CreateImage at h ⊢
  repeat' first | split at h | (dsimp only at h; split at h)
  all_goals first | (simp [status] at h; done) | skip
  rename_i authUser hq _ f hfile hopen htype _ p hprod hown _ st1 hput _ row st2 hins
  have hfail : env.insertFails = false := by
    unfold dbInsertImage at hins
    split_ifs at hins with hi
    simpa using hi
  refine ⟨authUser, f, p, st1, rfl, hfile, hprod, not_not.mp hown, hput, hfail, ?_⟩
  simp [hq, htype, hprod, hown, hopen, hput, dbInsertImage, hfail]

/-- What a DeleteImage that answers 204 did: the record it resolved, the blob
delete with the locator of that record, then the row delete. -/
theorem deleteImage_204 (env : Env) (user : Option User) (req : Request) (st : Store)
    (h : (DeleteImage env user req st).1.status = 204) :
    ∃ (image : Image) (st1 : Store),
      findImage st (atoiValue req.imageId) (atoiValue req.productId) = some image ∧
      s3DeleteObject env st image.S3BucketPath = some st1 ∧
      dbDeleteImage env st1 image = some (DeleteImage env user req st).2 := by
  unfold DeleteImage at h ⊢
  repeat' first | split at h | (dsimp only at h; split at h)
  all_goals first | (simp [status] at h; done) | skip
  rename_i authUser hq _ p hprod hown _ image himg _ st1 hdel _ st2 hdb
  refine ⟨image, st1, himg, hdel, ?_⟩
  simp [hq, hprod, hown, himg, hdel, hdb]

/-- The blob put leaves the image rows and the image sequence. -/
theorem s3PutObject_images {env : Env} {st st1 : Store} {key : String}
    (h : s3PutObject env st key = some st1) :
    st1.images = st.images ∧ st1.imageSeq = st.imageSeq := by
  unfold s3PutObject at h
  split at h
  · simp at h
  · simp only [Option.some.injEq] at h
    subst h
    exact ⟨rfl, rfl⟩

/-- C28: a CreateImage that answers 201 for the principal u, the product id of
the path and the file f passed to the blob put the key made of u's id, the
product id and the unique name (the generated identifier, a hyphen and the name
of f), separated by slashes; the product id is the id of the product resolved;
the row inserted, which the response returns, has exactly that key as locator,
the id of that product as product reference and the name of f as file name. A
DeleteImage that answers 204 resolved a record and passed exactly the locator
of that record to the blob delete before it deleted the row. Where image ids
are fresh, a DeleteImage that answers 204 for the record just created passes
the key of the creation to the blob delete. -/
theorem blob_key_consistency (env : Env) (user : Option User) (req : Request) (st : Store) :
    ((CreateImage env user req st).1.status = 201 →
      ∃ (u : User) (f : FileHeader) (p : Product) (st1 : Store) (row : Image),
        user = some u ∧ req.file = some f ∧
        findProduct st (atoiValue req.productId) = some p ∧
        toString (atoiValue req.productId) = toString p.ID ∧
        s3PutObject env st
          (toString u.ID ++ "/" ++ toString (atoiValue req.productId) ++ "/" ++
            (env.uuid ++ "-" ++ f.Filename)) = some st1 ∧
        dbInsertImage env st1
          { ImageID := 0, ProductID := (atoiValue req.productId).toNat, FileName := f.Filename,
            S3BucketPath := toString u.ID ++ "/" ++ toString (atoiValue req.productId) ++ "/" ++
              (env.uuid ++ "-" ++ f.Filename),
            DateCreated := env.now } = some (row, (CreateImage env user req st).2) ∧
        (CreateImage env user req st).1.body = Body.image row ∧
        row.S3BucketPath = toString u.ID ++ "/" ++ toString (atoiValue req.productId) ++ "/" ++
          (env.uuid ++ "-" ++ f.Filename) ∧
        row.ProductID = p.ID ∧ row.FileName = f.Filename ∧
        ((∀ i ∈ st.images, i.ImageID ≤ st.imageSeq) →
          ∀ (env2 : Env) (req2 : Request),
            req2.productId = req.productId → atoiValue req2.imageId = row.ImageID →
            (DeleteImage env2 user req2 (CreateImage env user req st).2).1.status = 204 →
            ∃ st3 : Store,
              s3DeleteObject env2 (CreateImage env user req st).2
                (toString u.ID ++ "/" ++ toString (atoiValue req.productId) ++ "/" ++
                  (env.uuid ++ "-" ++ f.Filename)) = some st3 ∧
              dbDeleteImage env2 st3 row =
                some (DeleteImage env2 user req2 (CreateImage env user req st).2).2)) ∧
    ((DeleteImage env user req st).1.status = 204 →
      ∃ (image : Image) (st1 : Store),
        findImage st (atoiValue req.imageId) (atoiValue req.productId) = some image ∧
        s3DeleteObject env st image.S3BucketPath = some st1 ∧
        dbDeleteImage env st1 image = some (DeleteImage env user req st).2) := by
  refine ⟨?_, deleteImage_204 env user req st⟩
  intro h201
  obtain ⟨u, f, p, st1, hu, hf, hp, _, hput, hfail, hres⟩ := createImage_201 env user req st h201
  have hid := (findProduct_some hp).2
  have hnat : (atoiValue req.productId).toNat = p.ID := by rw [← hid]; rfl
  refine ⟨u, f, p, st1,
    { ImageID := st1.imageSeq + 1, ProductID := (atoiValue req.productId).toNat,
      FileName := f.Filename,
      S3BucketPath := toString u.ID ++ "/" ++ toString (atoiValue req.productId) ++ "/" ++
        (env.uuid ++ "-" ++ f.Filename),
      DateCreated := env.now },
    hu, hf, hp, ?_, hput, ?_, ?_, rfl, hnat, rfl, ?_⟩
  · rw [← hid]; rfl
  · rw [hres]; simp [dbInsertImage, hfail]
  · rw [hres]
  · intro hfresh env2 req2 hpid hiid h204
    obtain ⟨image, st3, himg, hdel, hdb⟩ := deleteImage_204 env2 user req2 _ h204
    have himage : image =
        { ImageID := st1.imageSeq + 1, ProductID := (atoiValue req.productId).toNat,
          FileName := f.Filename,
          S3BucketPath := toString u.ID ++ "/" ++ toString (atoiValue req.productId) ++ "/" ++
            (env.uuid ++ "-" ++ f.Filename),
          DateCreated := env.now } := by
      have hmem := List.mem_of_find?_eq_some himg
      have hpred := List.find?_some himg
      rw [hres] at hmem
      simp only [List.mem_append, List.mem_singleton] at hmem
      rcases hmem with hm | hm
      · exfalso
        rw [(s3PutObject_images hput).1] at hm
        have hle := hfresh image hm
        rw [hiid] at hpred
        simp only [Bool.and_eq_true, decide_eq_true_eq] at hpred
        have h1 := hpred.1
        rw [(s3PutObject_images hput).2] at h1
        have h2 : image.ImageID = st.imageSeq + 1 := by exact_mod_cast h1
        omega
      · exact hm
    rw [himage] at hdel hdb
    exact ⟨st3, hdel, hdb⟩

/-- Instance of C28: alice uploads g.png to her widget with the generated
identifier u2; the row returned has the locator 1/1/u2-g.png and the product
reference 1. Her DeleteImage of the photo answers 204 and passes the locator of
the photo, 1/1/u-f.png, to the blob delete. -/
theorem blob_key_consistency_witness :
    (∃ row : Image,
      (CreateImage { uuid := "u2" } (some alice)
        { method := "POST", productId := "1", file := some pngFile } sampleStore).1
        = { status := 201, body := Body.image row } ∧
      row.S3BucketPath = "1/1/u2-g.png" ∧ row.ProductID = 1) ∧
    (DeleteImage {} (some alice) { method := "DELETE", productId := "1", imageId := "1" }
      sampleStore).1.status = 204 ∧
    ∃ (image : Image) (st1 : Store),
      findImage sampleStore 1 1 = some image ∧
      s3DeleteObject {} sampleStore image.S3BucketPath = some st1 ∧
      dbDeleteImage {} st1 image =
        some (DeleteImage {} (some alice) { method := "DELETE", productId := "1", imageId := "1" }
          sampleStore).2 := by
  refine ⟨?_, by decide,
    (blob_key_consistency {} (some alice) { method := "DELETE", productId := "1", imageId := "1" }
      sampleStore).2 (by decide)⟩
  obtain ⟨u, f, p, st1, row, hu, hf, hp, _, _, _, hbody, hkey, hpid, _, _⟩ :=
    (blob_key_consistency { uuid := "u2" } (some alice)
      { method := "POST", productId := "1", file := some pngFile } sampleStore).1 (by decide)
  injection hu with hu
  injection hf with hf
  subst hu hf
  have hw : p = widget := by
    have : findProduct sampleStore (atoiValue "1") = some widget := by decide
    exact Option.some.inj (hp.symm.trans this)
  subst hw
  refine ⟨row, ?_, hkey.trans (by decide), hpid⟩
  have hst : (CreateImage { uuid := "u2" } (some alice)
      { method := "POST", productId := "1", file := some pngFile } sampleStore).1.status = 201 := by
    decide
  rw [← hbody, ← hst]

/-- C29, evaluated at a failing input: alice patches her widget with the body
null, which decodes without error and leaves the field map nil; the assignment
of the timestamp to the nil map faults and the answer is 500, neither 204 nor
400. -/
theorem patch_null_body_faults :
    decodeMap (some JSON.null) = some none ∧
    findProduct sampleStore 1 = some widget ∧ widget.OwnerUserID = alice.ID ∧
    UpdatePatchProduct {} (some alice)
      { method := "PATCH", productId := "1", contentLength := 4, body := some JSON.null }
      sampleStore = (status 500, sampleStore) := by
  decide

/-- C30, evaluated at failing inputs: the hasher returns an error for the
password of 73 bytes, and UpdateUser answers 204 and stores the empty string as
alice's credential; with a hasher that returns an error, CreateUser answers 201
and inserts the account with the empty string as credential. -/
theorem hash_error_discarded :
    bcryptEnv.hash longPassword = none ∧
    UpdateUser bcryptEnv (some alice)
      { method := "PUT", userId := "1", contentLength := 130,
        body := some (JSON.obj (userMembers "Alice" "A" longPassword)) } sampleStore
      = (status 204, { sampleStore with users := [{ alice with Password := "" }, bob] }) ∧
    (CreateUser { hash := fun _ => none }
      { method := "POST", contentLength := 120,
        body := some (JSON.obj [("first_name", JSON.str "Jane"), ("last_name", JSON.str "Doe"),
          ("password", JSON.str "Password123"), ("username", JSON.str "jane@example.com")]) }
      sampleStore).1.status = 201 ∧
    (CreateUser { hash := fun _ => none }
      { method := "POST", contentLength := 120,
        body := some (JSON.obj [("first_name", JSON.str "Jane"), ("last_name", JSON.str "Doe"),
          ("password", JSON.str "Password123"), ("username", JSON.str "jane@example.com")]) }
      sampleStore).2.users.map (fun x => (x.Username, x.Password)) =
        [("alice@example.com", "digest-of-alice"), ("bob@example.com", "digest-of-bob"),
         ("jane@example.com", "")] := by
  decide

end GoWebapp
